import Mathlib

/-
Verification of the warppanel control-plane core.

The Python sources under src/backend/app and src/controller-app/app are
shallowly embedded below.  External-world interaction (subprocess execution,
file existence, sockets, wall-clock time, psutil) is modelled by an oracle
structure `Env`; every controller method becomes a function in a small
state-plus-trace monad `M`.  One unit of the `tick` clock passes at every
external interaction, and every spawned command (plus a few bracketed pseudo
events such as port polls and process kills) is appended to the trace, so
that claims about "which commands were issued" are statements about the
trace.  Bounded polling loops of the sources (for ... in range(n), and the
wall-clock-bounded wait_for_status loops that sleep a fixed interval per
iteration) are embedded with an explicit fuel argument equal to the per-call
iteration bound.
-/

namespace Warp

/-! ## String helpers mirroring the Python string operations used -/

/-- Boolean list prefix test used to build the substring test. -/
def segPre : List Char → List Char → Bool
  | [], _ => true
  | _ :: _, [] => false
  | a :: as, b :: bs => a == b && segPre as bs

/-- Boolean infix (contiguous sublist) test on char lists. -/
def segIn (needle : List Char) : List Char → Bool
  | [] => segPre needle []
  | c :: t => segPre needle (c :: t) || segIn needle t

/-- Python `needle in haystack` on strings: substring containment. -/
def strContains (hay pat : String) : Bool := segIn pat.data hay.data

/-- Python `str.strip()`: drop leading and trailing whitespace.  (A
list-based implementation so that terms reduce inside the kernel.) -/
def pyTrim (s : String) : String :=
  String.mk (((s.data.dropWhile Char.isWhitespace).reverse.dropWhile
    Char.isWhitespace).reverse)

/-- Split on a single-character predicate (keeping empty segments). -/
def splitPred (p : Char → Bool) : List Char → List Char → List (List Char)
  | [], acc => [acc.reverse]
  | c :: t, acc =>
    if p c then acc.reverse :: splitPred p t []
    else splitPred p t (c :: acc)

/-- Python `str.split()` with no argument: split on runs of whitespace. -/
def pyWords (s : String) : List String :=
  ((splitPred Char.isWhitespace s.data []).map String.mk).filter (fun w => w ≠ "")

/-- Scanner for `pySplitOn`; fuel is the input length (each step consumes
at least one character of the input). -/
def splitOnAux (sep : List Char) : Nat → List Char → List Char → List (List Char)
  | _, [], acc => [acc.reverse]
  | 0, l, acc => [acc.reverse ++ l]
  | fuel + 1, c :: t, acc =>
    if segPre sep (c :: t) then
      acc.reverse :: splitOnAux sep fuel ((c :: t).drop sep.length) []
    else splitOnAux sep fuel t (c :: acc)

/-- Python `str.split(sep)` for a nonempty separator string. -/
def pySplitOn (s sep : String) : List String :=
  if sep.data = [] then [s]
  else (splitOnAux sep.data s.data.length s.data []).map String.mk

/-- Python `str.lower()` (over the ASCII range used by the sources). -/
def pyLower (s : String) : String := String.mk (s.data.map Char.toLower)

/-- Python `str.upper()` (over the ASCII range used by the sources). -/
def pyUpper (s : String) : String := String.mk (s.data.map Char.toUpper)

/-- Python `list.index(x)` followed by `[i+1]`: the element after the first
occurrence of `x`, if any (IndexError modelled as `none`). -/
def afterTok (parts : List String) (tok : String) : Option String :=
  match parts with
  | [] => none
  | a :: rest => if a = tok then rest.head? else afterTok rest tok

/-! ## External world oracle -/

/-- Result of spawning one external command: normal completion with exit
code, stdout and stderr, a timeout, or an exception carrying a message. -/
inductive RunRes where
  | ok (rc : Int) (out err : String)
  | timeout
  | exc (msg : String)
deriving DecidableEq

/-- One psutil connection record (laddr.port, status, pid). -/
structure NetConn where
  port : Nat
  status : String
  pid : Int
deriving DecidableEq

/-- Geolocation record produced by the IP-info HTTP lookup.  The lookup
itself (curl through the proxy plus JSON decoding) is network input and is
provided by the oracle rather than re-implemented. -/
structure IpInfo where
  ip : String
  country : String
  city : String
  location : String
  isp : String
deriving DecidableEq

/-- The external world.  Oracles are indexed by the global `tick` so the
world may change between interactions (daemons coming up, ports opening). -/
structure Env where
  /-- Outcome of running a command line at a given tick. -/
  run : Nat → String → RunRes
  /-- os.path.exists / os.path.isfile. -/
  fileExists : Nat → String → Bool
  /-- shutil.which succeeds for the named tool. -/
  which : String → Bool
  /-- A TCP connect to 127.0.0.1:port succeeds at the tick (port busy). -/
  portBusy : Nat → Nat → Bool
  /-- psutil.net_connections() snapshot. -/
  netConns : List NetConn
  /-- psutil imports successfully (ImportError path otherwise). -/
  psutilOk : Bool
  /-- Wall/monotonic clock reading at a tick. -/
  timeAt : Nat → Int
  /-- Result of the IP/geolocation lookup chain at a tick (the curl plus
  JSON parsing of the _fetch_ip_info helpers); none on total failure. -/
  ipApi : Nat → Option IpInfo
  /-- endpoint_v4 read out of the usque config.json, abstracting the
  file read plus JSON field access of _get_warp_endpoint. -/
  cfgEndpoint : Nat → Option String
  /-- Content of a configuration file when it is readable. -/
  readFile : Nat → String → Option String
  /-- KernelVersionManager.get_binary_path: resolve a backend name to the
  absolute path of a runnable client executable. -/
  binPath : String → String

/-! ## State-plus-trace monad -/

/-- World-interaction bookkeeping around a controller state `σ`:
the controller state, the tick clock and the event trace. -/
structure K (σ : Type) where
  st : σ
  tick : Nat
  trace : List String
deriving DecidableEq

/-- The effect monad: reader of `Env`, state over `K σ`. -/
def M (σ : Type) (α : Type) : Type := Env → K σ → α × K σ

instance : Monad (M σ) where
  pure a := fun _ k => (a, k)
  bind m f := fun env k => f (m env k).1 env (m env k).2

/-- Spawn a command: consult the oracle, advance the clock, record the
command in the trace.  The controller state is untouched. -/
def spawn (cmd : String) : M σ RunRes := fun env k =>
  (env.run k.tick cmd, ⟨k.st, k.tick + 1, k.trace ++ [cmd]⟩)

/-- time.sleep / asyncio.sleep: time passes, nothing else. -/
def sleep : M σ Unit := fun _ k => ((), ⟨k.st, k.tick + 1, k.trace⟩)

/-- os.path.exists / os.path.isfile at the current tick. -/
def fileExists (p : String) : M σ Bool := fun env k => (env.fileExists k.tick p, k)

/-- Current clock reading (time.time() / loop.time()). -/
def now : M σ Int := fun env k => (env.timeAt k.tick, k)

/-- Read the controller state. -/
def getSt : M σ σ := fun _ k => (k.st, k)

/-- Update the controller state. -/
def modSt (f : σ → σ) : M σ Unit := fun _ k => ((), ⟨f k.st, k.tick, k.trace⟩)

/-- Record a bracketed pseudo event (socket poll, process kill, file write)
in the trace; these are world interactions that are not command spawns. -/
def event (e : String) : M σ Unit := fun _ k => ((), ⟨k.st, k.tick + 1, k.trace ++ [e]⟩)

/-- The IP-info lookup oracle (network input). -/
def ipLookup : M σ (Option IpInfo) := fun env k =>
  (env.ipApi k.tick, ⟨k.st, k.tick + 1, k.trace⟩)

/-- The usque config endpoint_v4 oracle (config-file input). -/
def endpointLookup : M σ (Option String) := fun env k =>
  (env.cfgEndpoint k.tick, ⟨k.st, k.tick + 1, k.trace⟩)

/-- Read a file (supervisor config rewriting). -/
def readFileM (p : String) : M σ (Option String) := fun env k =>
  (env.readFile k.tick p, k)

/-- Binary-path resolution for a backend name. -/
def binPathM (name : String) : M σ String := fun env k => (env.binPath name, k)

/-! ## The one regular-expression substitution used by the sources

Both supervisor-config rewrites substitute a pattern of the shape
`literal-prefix ++ one-or-more-digits ++ literal-suffix` (the suffix starts
with a non-digit or is empty, so the greedy digit run of the regex is the
maximal one).  `reSubDigits` performs the non-overlapping global
substitution of Python re.sub for that pattern shape. -/

/-- Maximal leading digit run of a char list, with the remainder. -/
def takeDigits : List Char → List Char × List Char
  | [] => ([], [])
  | c :: t =>
    if c.isDigit then
      let p := takeDigits t
      (c :: p.1, p.2)
    else ([], c :: t)

/-- Scanner for `reSubDigits`; `fuel` bounds the recursion and is
instantiated with the input length (each step consumes at least one
character). -/
def subScan (pre post repl : List Char) : Nat → List Char → List Char
  | 0, l => l
  | _ + 1, [] => []
  | fuel + 1, c :: t =>
    if segPre pre (c :: t) then
      let rest := (c :: t).drop pre.length
      let p := takeDigits rest
      if p.1 ≠ [] ∧ segPre post p.2 then
        repl ++ subScan pre post repl fuel (p.2.drop post.length)
      else c :: subScan pre post repl fuel t
    else c :: subScan pre post repl fuel t

/-- re.sub over the pattern `pre (\d+) post`, replacing with `repl`. -/
def reSubDigits (pre post repl content : String) : String :=
  String.mk (subScan pre.data post.data repl.data content.data.length content.data)

/-! ## Status records (the dicts built by _get_status_uncached) -/

/-- The status dictionary assembled by the controllers.  The nested
`details` dict is carried as its only used payload, the optional isp note. -/
structure StatusRec where
  backend : String
  status : String
  ip : String
  location : String
  city : String
  country : String
  isp : String
  warp_protocol : String
  warp_mode : String
  connection_time : String
  network_type : String
  proxy_address : String
  http_proxy_address : Option String
  details_isp : Option String
deriving DecidableEq

/-- base_status.update(ip_info): overwrite the geolocation fields. -/
def StatusRec.updIp (r : StatusRec) (i : IpInfo) : StatusRec :=
  { r with ip := i.ip, country := i.country, city := i.city,
           location := i.location, isp := i.isp, details_isp := some i.isp }

/-! ## backend/app/controllers/base_controller.py — WarpBackendController

The abstract base class: methods that dispatch through `self` on abstract
members (is_connected, connect, disconnect, the cache fields) are embedded
as functions parameterised by those members, and instantiated once per
concrete driver below. -/

namespace BaseController

/-- WarpBackendController._run_command: run a command, returning
(returncode, stdout.strip(), stderr.strip()); a timeout becomes the
sentinel (-1, "", "Timeout") and any other exception (-1, "", str(e)).
Failures never escape as exceptions. -/
def run_command (cmd : String) : M σ (Int × String × String) := do
  let r ← spawn cmd
  match r with
  | .ok rc out err => pure (rc, pyTrim out, pyTrim err)
  | .timeout => pure (-1, "", "Timeout")
  | .exc m => pure (-1, "", m)

/-- WarpBackendController._is_port_open: `ss -lnt sport = :port` and then a
substring test of ":port" against the stdout; the exit code is unused and
any query failure yields false via the empty stdout. -/
def is_port_open (port : Nat) : M σ Bool := do
  let r ← run_command ("ss -lnt sport = :" ++ toString port)
  pure (strContains r.2.1 (":" ++ toString port))

/-- WarpBackendController.wait_for_status: poll is_connected once per
iteration (the source sleeps 1s between polls and bounds the loop by
`timeout` seconds of wall clock, hence at most `timeout`-many polls, the
`fuel` here); on reaching the target the status cache is invalidated and
the wait succeeds, otherwise it times out with false. -/
def wait_for_status (is_conn : M σ Bool) (inval : σ → σ)
    (target : String) : Nat → M σ Bool
  | 0 => pure false
  | fuel + 1 => do
    let c ← is_conn
    if (target = "connected" ∧ c) ∨ (target = "disconnected" ∧ ¬ c) then do
      modSt inval
      pure true
    else do
      sleep
      wait_for_status is_conn inval target fuel

/-- WarpBackendController._get_status_uncached, parameterised by the
subclass members it reads (is_connected, mode, the socks5 port and the
per-instance 120s ip-info cache). -/
def get_status_uncached (is_conn : M σ Bool) (backendName : String)
    (modeOf : σ → String) (portOf : σ → Nat)
    (ipcOf : σ → Option IpInfo) (ipcTimeOf : σ → Int)
    (clearIpc : σ → σ) (setIpc : IpInfo → Int → σ → σ) : M σ StatusRec := do
  let connected ← is_conn
  let s ← getSt
  let base : StatusRec :=
    { backend := backendName
      status := if connected then "connected" else "disconnected"
      ip := "Unknown", location := "Unknown", city := "Unknown"
      country := "Unknown", isp := "Cloudflare WARP"
      warp_protocol := "MASQUE", warp_mode := modeOf s
      connection_time := "Unknown", network_type := "Unknown"
      proxy_address := "socks5://127.0.0.1:" ++ toString (portOf s)
      http_proxy_address := none, details_isp := none }
  if ¬ connected then do
    modSt clearIpc
    pure base
  else do
    let n ← now
    match ipcOf s with
    | some info =>
      if n - ipcTimeOf s < 120 then pure (base.updIp info)
      else do
        let fresh ← ipLookup
        match fresh with
        | some i => do
          modSt (setIpc i n)
          pure (base.updIp i)
        | none => pure (base.updIp info)
    | none => do
      let fresh ← ipLookup
      match fresh with
      | some i => do
        modSt (setIpc i n)
        pure (base.updIp i)
      | none => pure base

/-- WarpBackendController.get_status: serve the cached record while its age
is strictly below the 2s TTL, otherwise recompute through `uncached` and
store the fresh record stamped with the time read before recomputing. -/
def get_status (uncached : M σ StatusRec)
    (cacheOf : σ → Option StatusRec) (cacheTimeOf : σ → Int)
    (setCache : Option StatusRec → Int → σ → σ) : M σ StatusRec := do
  let n ← now
  let s ← getSt
  match cacheOf s with
  | some c =>
    if n - cacheTimeOf s < 2 then pure c
    else do
      let st ← uncached
      modSt (setCache (some st) n)
      pure st
  | none => do
    let st ← uncached
    modSt (setCache (some st) n)
    pure st

/-- WarpBackendController.rotate_ip_simple: disconnect (result ignored),
wait up to 5s for the disconnected condition (result ignored), sleep 2s,
connect, and on a successful connect wait up to 15s for the connected
condition, whose outcome is the result; a failed connect yields false. -/
def rotate_ip_simple (connectM disconnectM is_conn : M σ Bool)
    (inval : σ → σ) : M σ Bool := do
  let _ ← disconnectM
  let _ ← wait_for_status is_conn inval "disconnected" 5
  sleep
  let c ← connectM
  if c then wait_for_status is_conn inval "connected" 15
  else pure false

end BaseController

/-! ## backend/app/controllers/usque_controller.py — UsqueController -/

namespace BackendUsque

/-- Instance state of the backend UsqueController (mode is the constant
"proxy" property; the class-level status cache is carried per instance,
matching the instance-attribute shadowing the first write creates). -/
structure UState where
  config_path : String
  socks5_port : Nat
  processSome : Bool
  cached_ip_info : Option IpInfo
  cache_time : Int
  status_cache : Option StatusRec
  status_cache_time : Int
deriving DecidableEq

/-- UsqueController.__init__ (with an explicit config path, as the
USQUE_CONFIG_PATH default resolution is environment input). -/
def mkState (config_path : String) (socks5_port : Nat) : UState :=
  { config_path := config_path, socks5_port := socks5_port
    processSome := false, cached_ip_info := none, cache_time := 0
    status_cache := none, status_cache_time := 0 }

/-- _invalidate_status_cache. -/
def inval (s : UState) : UState :=
  { s with status_cache := none, status_cache_time := 0 }

/-- UsqueController.initialize: if the config file is absent, run the
client registration once (`<binary> register`, success iff exit code 0);
an existing config short-circuits to success with no spawn. -/
def init : M UState Bool := do
  let s ← getSt
  let ex ← fileExists s.config_path
  if ¬ ex then do
    let bp ← binPathM "usque"
    let r ← spawn (bp ++ " register")
    match r with
    | .ok rc _ _ => pure (rc == 0)
    | _ => pure false
  else pure true

/-- UsqueController._is_port_open (inherited). -/
def is_port_open (port : Nat) : M UState Bool := BaseController.is_port_open port

/-- UsqueController._is_proxy_connected: supervisorctl reports usque
RUNNING and the SOCKS5 port is listening. -/
def is_proxy_connected : M UState Bool := do
  let r ← BaseController.run_command "supervisorctl status usque"
  if r.1 ≠ 0 ∨ ¬ strContains r.2.1 "RUNNING" then pure false
  else do
    let s ← getSt
    is_port_open s.socks5_port

/-- UsqueController.is_connected. -/
def is_connected : M UState Bool := is_proxy_connected

/-- UsqueController._update_supervisor_usque_port: for each known
supervisor config file that exists and is readable, rewrite the usque
command line to the current port; if the content changed, write it back
and reread/update supervisor. -/
def update_supervisor_usque_port : M UState Unit := do
  let s ← getSt
  let new_cmd := "command=/usr/local/bin/usque -c /var/lib/warp/config.json socks -b 0.0.0.0 -p "
      ++ toString s.socks5_port
  for_conf "/etc/supervisor/conf.d/supervisord.conf" new_cmd
  for_conf "/etc/supervisor/conf.d/warppool.conf" new_cmd
where
  for_conf (conf_path new_cmd : String) : M UState Unit := do
    let ex ← fileExists conf_path
    if ¬ ex then pure ()
    else do
      let content? ← readFileM conf_path
      match content? with
      | none => pure ()
      | some content =>
        let updated := reSubDigits
          "command=/usr/local/bin/usque -c /var/lib/warp/config.json socks -b 0.0.0.0 -p "
          "" new_cmd content
        if updated ≠ content then do
          event ("[write] " ++ conf_path)
          let _ ← BaseController.run_command "supervisorctl reread"
          let _ ← BaseController.run_command "supervisorctl update"
          pure ()
        else pure ()

/-- The readiness polling loop of _connect_proxy (15 one-second polls). -/
def proxy_wait : Nat → M UState Bool
  | 0 => pure false
  | fuel + 1 => do
    let c ← is_proxy_connected
    if c then pure true
    else do
      sleep
      proxy_wait fuel

/-- UsqueController._connect_proxy: rewrite the supervisor port, stop then
start the usque service, and poll readiness up to 15 times. -/
def connect_proxy : M UState Bool := do
  update_supervisor_usque_port
  let _ ← BaseController.run_command "supervisorctl stop usque"
  sleep
  let r ← BaseController.run_command "supervisorctl start usque"
  if r.1 ≠ 0 then pure false
  else proxy_wait 15

/-- UsqueController.connect: initialize, short-circuit when already
connected, otherwise start the proxy. -/
def connect : M UState Bool := do
  let ok ← init
  if ¬ ok then pure false
  else do
    let c ← is_connected
    if c then pure true
    else connect_proxy

/-- UsqueController.disconnect: stop the usque service, drop the process
handle, invalidate the status cache, and report success. -/
def disconnect : M UState Bool := do
  let _ ← BaseController.run_command "supervisorctl stop usque"
  modSt (fun s => { s with processSome := false })
  modSt inval
  pure true

/-- UsqueController._get_status_uncached: the base record with the backend
name pinned to "usque". -/
def get_status_uncached : M UState StatusRec := do
  let r ← BaseController.get_status_uncached is_connected "usque"
    (fun _ => "proxy") (fun s => s.socks5_port)
    (fun s => s.cached_ip_info) (fun s => s.cache_time)
    (fun s => { s with cached_ip_info := none })
    (fun i n s => { s with cached_ip_info := some i, cache_time := n })
  pure { r with backend := "usque" }

/-- UsqueController.get_status (inherited, 2s TTL). -/
def get_status : M UState StatusRec :=
  BaseController.get_status get_status_uncached
    (fun s => s.status_cache) (fun s => s.status_cache_time)
    (fun c n s => { s with status_cache := c, status_cache_time := n })

/-- UsqueController.wait_for_status (inherited). -/
def wait_for_status (target : String) (fuel : Nat) : M UState Bool :=
  BaseController.wait_for_status is_connected inval target fuel

/-- UsqueController.rotate_ip_simple (inherited). -/
def rotate_ip_simple : M UState Bool :=
  BaseController.rotate_ip_simple connect disconnect is_connected inval

end BackendUsque

/-! ## backend/app/controllers/official_controller.py — OfficialController -/

namespace BackendOfficial

/-- Instance state of the backend OfficialController. -/
structure OState where
  socks5_port : Nat
  mute_backend_logs : Bool
  preferred_protocol : String
  cached_ip_info : Option IpInfo
  cache_time : Int
  status_cache : Option StatusRec
  status_cache_time : Int
deriving DecidableEq

/-- OfficialController.__init__. -/
def mkState (socks5_port : Nat) : OState :=
  { socks5_port := socks5_port, mute_backend_logs := false
    preferred_protocol := "masque", cached_ip_info := none, cache_time := 0
    status_cache := none, status_cache_time := 0 }

/-- _invalidate_status_cache. -/
def inval (s : OState) : OState :=
  { s with status_cache := none, status_cache_time := 0 }

/-- OfficialController.execute_command: run a warp-cli command; a nonzero
exit code (or exception) becomes None, success returns the stripped
stdout. -/
def execute_command (cmd : String) : M OState (Option String) := do
  let r ← BaseController.run_command cmd
  if r.1 ≠ 0 then pure none else pure (some r.2.1)

/-- OfficialController._is_daemon_responsive: warp-svc RUNNING under
supervisor and warp-cli answering a status probe with exit code 0. -/
def is_daemon_responsive : M OState Bool := do
  let r ← BaseController.run_command "supervisorctl status warp-svc"
  if r.1 ≠ 0 ∨ ¬ strContains r.2.1 "RUNNING" then pure false
  else do
    let r2 ← BaseController.run_command "warp-cli --accept-tos status"
    pure (r2.1 == 0)

/-- OfficialController._check_daemon_running. -/
def check_daemon_running : M OState Bool := is_daemon_responsive

/-- OfficialController.is_connected: daemon responsive, then the lowered
warp-cli status output contains "connected" but not "disconnected". -/
def is_connected : M OState Bool := do
  let d ← check_daemon_running
  if ¬ d then pure false
  else do
    let r ← BaseController.run_command "warp-cli --accept-tos status"
    if r.1 ≠ 0 then pure false
    else
      pure (strContains (pyLower r.2.1) "connected"
        ∧ ¬ strContains (pyLower r.2.1) "disconnected")

/-- OfficialController._stop_services: stop socat then warp-svc. -/
def stop_services : M OState Unit := do
  let _ ← BaseController.run_command "supervisorctl stop socat"
  let _ ← BaseController.run_command "supervisorctl stop warp-svc"
  pure ()

/-- OfficialController._configure_warp_proxy: register when the
registration artifact is absent, then set protocol, mode and proxy port. -/
def configure_warp_proxy : M OState Bool := do
  let ex ← fileExists "/var/lib/cloudflare-warp/reg.json"
  if ¬ ex then do
    let _ ← execute_command "warp-cli --accept-tos registration delete"
    let _ ← execute_command "warp-cli --accept-tos registration new"
    pure ()
  let _ ← execute_command "warp-cli --accept-tos tunnel protocol set MASQUE"
  let _ ← execute_command "warp-cli --accept-tos mode proxy"
  let _ ← execute_command "warp-cli --accept-tos proxy port 40001"
  pure true

/-- OfficialController._update_supervisor_socat_port: rewrite the socat
listen port in each existing supervisor config file. -/
def update_supervisor_socat_port : M OState Unit := do
  let s ← getSt
  let new_cmd := "command=/usr/bin/socat TCP-LISTEN:" ++ toString s.socks5_port
      ++ ",reuseaddr,bind=0.0.0.0,fork TCP:127.0.0.1:40001"
  for_conf "/etc/supervisor/conf.d/supervisord.conf" new_cmd
  for_conf "/etc/supervisor/conf.d/warppool.conf" new_cmd
where
  for_conf (conf_path new_cmd : String) : M OState Unit := do
    let ex ← fileExists conf_path
    if ¬ ex then pure ()
    else do
      let content? ← readFileM conf_path
      match content? with
      | none => pure ()
      | some content =>
        let updated := reSubDigits "command=/usr/bin/socat TCP-LISTEN:"
          ",reuseaddr,bind=0.0.0.0,fork TCP:127.0.0.1:40001" new_cmd content
        if updated ≠ content then do
          event ("[write] " ++ conf_path)
          let _ ← BaseController.run_command "supervisorctl reread"
          let _ ← BaseController.run_command "supervisorctl update"
          pure ()
        else pure ()

/-- OfficialController._ensure_socat (the backend variant always runs in
proxy mode, so the early mode guard never fires): refresh the supervisor
config, check socat RUNNING and the port listening, and if either check
fails restart socat and re-probe the port. -/
def ensure_socat : M OState Unit := do
  update_supervisor_socat_port
  let r ← BaseController.run_command "supervisorctl status socat"
  let sys_active := r.1 == 0 && strContains r.2.1 "RUNNING"
  let s ← getSt
  let port_open ← BaseController.is_port_open s.socks5_port
  if sys_active ∧ port_open then pure ()
  else do
    let _ ← BaseController.run_command "supervisorctl stop socat"
    sleep
    let _ ← BaseController.run_command "supervisorctl start socat"
    sleep
    let p ← BaseController.is_port_open s.socks5_port
    if ¬ p then sleep
    else pure ()

/-- The warp-svc readiness loop of _start_services_proxy (30 polls). -/
def svc_wait : Nat → M OState Bool
  | 0 => pure false
  | fuel + 1 => do
    let d ← is_daemon_responsive
    if d then configure_warp_proxy
    else do
      sleep
      svc_wait fuel

/-- OfficialController._start_services_proxy: start warp-svc, wait for it
to answer, then configure proxy mode. -/
def start_services_proxy : M OState Bool := do
  modSt (fun s => { s with mute_backend_logs := false })
  let r ← BaseController.run_command "supervisorctl start warp-svc"
  if r.1 ≠ 0 then pure false
  else do
    sleep
    ensure_socat
    svc_wait 30

/-- OfficialController.wait_for_status (inherited). -/
def wait_for_status (target : String) (fuel : Nat) : M OState Bool :=
  BaseController.wait_for_status is_connected inval target fuel

/-- OfficialController._connect_proxy: ensure registration, restart the
services when the daemon is unresponsive, ensure socat, reset and
configure the client, issue the connect command, then wait up to 30s for
the connected condition. -/
def connect_proxy : M OState Bool := do
  let reg ← fileExists "/var/lib/cloudflare-warp/reg.json"
  if ¬ reg then do
    let _ ← execute_command "warp-cli --accept-tos registration new"
    pure ()
  let d ← is_daemon_responsive
  let okServices ←
    if ¬ d then do
      stop_services
      start_services_proxy
    else pure true
  if ¬ okServices then pure false
  else do
    ensure_socat
    let _ ← execute_command "warp-cli --accept-tos disconnect"
    let _ ← execute_command "warp-cli --accept-tos mode proxy"
    let _ ← execute_command "warp-cli --accept-tos proxy port 40001"
    let _ ← execute_command "warp-cli --accept-tos tunnel protocol set MASQUE"
    let _ ← execute_command "warp-cli --accept-tos connect"
    sleep
    let w ← wait_for_status "connected" 30
    if w then do
      modSt (fun s => { s with mute_backend_logs := true })
      modSt inval
      pure true
    else do
      let _ ← execute_command "warp-cli --accept-tos status"
      pure false

/-- OfficialController.connect delegates to the proxy path. -/
def connect : M OState Bool := connect_proxy

/-- OfficialController.disconnect: invalidate the cache, issue the
best-effort client disconnect and short disconnected wait, then stop the
services unconditionally and report success. -/
def disconnect : M OState Bool := do
  modSt inval
  let _ ← execute_command "warp-cli --accept-tos disconnect"
  let _ ← wait_for_status "disconnected" 5
  stop_services
  pure true

/-- OfficialController._get_status_uncached: base record with the backend
name pinned to "official". -/
def get_status_uncached : M OState StatusRec := do
  let r ← BaseController.get_status_uncached is_connected "official"
    (fun _ => "proxy") (fun s => s.socks5_port)
    (fun s => s.cached_ip_info) (fun s => s.cache_time)
    (fun s => { s with cached_ip_info := none })
    (fun i n s => { s with cached_ip_info := some i, cache_time := n })
  pure { r with backend := "official" }

/-- OfficialController.get_status (inherited, 2s TTL). -/
def get_status : M OState StatusRec :=
  BaseController.get_status get_status_uncached
    (fun s => s.status_cache) (fun s => s.status_cache_time)
    (fun c n s => { s with status_cache := c, status_cache_time := n })

/-- OfficialController.rotate_ip_simple (inherited). -/
def rotate_ip_simple : M OState Bool :=
  BaseController.rotate_ip_simple connect disconnect is_connected inval

end BackendOfficial

/-! ## backend/app/controllers/warp_controller.py — WarpController factory -/

namespace Factory

/-- The single active driver instance held by the factory. -/
inductive Drv where
  | usque (s : BackendUsque.UState)
  | official (s : BackendOfficial.OState)
deriving DecidableEq

/-- Class-level factory state: the instance, the current backend name, the
configured SOCKS5 port, and the WARP_BACKEND process environment
variable. -/
structure FState where
  inst : Option Drv
  current : Option String
  socks5_port : Nat
  envBackend : Option String
deriving DecidableEq

/-- Dispatch a per-driver action on the held instance, returning the
updated instance (the drivers mutate themselves in place). -/
def runDrv (mu : M BackendUsque.UState α) (mo : M BackendOfficial.OState α)
    (d : Drv) : M FState (α × Drv) := fun env k =>
  match d with
  | .usque s =>
    let r := mu env ⟨s, k.tick, k.trace⟩
    ((r.1, .usque r.2.st), ⟨k.st, r.2.tick, r.2.trace⟩)
  | .official s =>
    let r := mo env ⟨s, k.tick, k.trace⟩
    ((r.1, .official r.2.st), ⟨k.st, r.2.tick, r.2.trace⟩)

/-- A TCP connect probe against 127.0.0.1:port (the asyncio.open_connection
check of the port-release loop); true means the port is still busy. -/
def pollPort (port : Nat) : M σ Bool := fun env k =>
  (env.portBusy k.tick port, ⟨k.st, k.tick + 1, k.trace ++ ["[poll] " ++ toString port]⟩)

/-- psutil import success. -/
def psutilAvail : M σ Bool := fun env k => (env.psutilOk, k)

/-- psutil.net_connections(). -/
def netConnsM : M σ (List NetConn) := fun env k => (env.netConns, k)

/-- WarpController.get_instance: update the configured port when given,
then lazily (re)build the driver matching the WARP_BACKEND environment
value; an unknown name raises ValueError. -/
def get_instance (port? : Option Nat) : M FState (Except String Drv) := do
  match port? with
  | some p => modSt (fun s => { s with socks5_port := p })
  | none => pure ()
  let s ← getSt
  let backend := pyLower (s.envBackend.getD "usque")
  if s.inst.isNone ∨ s.current ≠ some backend then do
    modSt (fun st => { st with current := some backend })
    if backend = "usque" then do
      let st ← getSt
      let d : Drv := .usque (BackendUsque.mkState "/var/lib/warp/config.json" st.socks5_port)
      modSt (fun st => { st with inst := some d })
      pure (Except.ok d)
    else if backend = "official" then do
      let st ← getSt
      let d : Drv := .official (BackendOfficial.mkState st.socks5_port)
      modSt (fun st => { st with inst := some d })
      pure (Except.ok d)
    else pure (Except.error ("Unknown WARP_BACKEND: " ++ backend))
  else
    match s.inst with
    | some d => pure (Except.ok d)
    | none => pure (Except.error "unreachable")

/-- The bounded port-release polling of switch_backend: up to 10 connect
probes, sleeping between busy probes, stopping at the first refused
connection. -/
def port_wait (port : Nat) : Nat → M FState Unit
  | 0 => pure ()
  | fuel + 1 => do
    let busy ← pollPort port
    if busy then do
      sleep
      port_wait port fuel
    else pure ()

/-- The forced-reclaim fallback: kill every process still listed as
LISTENing on the port. -/
def kill_leftovers (port : Nat) : List NetConn → M FState Unit
  | [] => pure ()
  | c :: t => do
    if c.port = port ∧ c.status = "LISTEN" then
      event ("[kill] " ++ toString c.pid)
    else pure ()
    kill_leftovers port t

/-- The port-release segment of switch_backend: bounded polling for the
SOCKS5 port, then the psutil force-kill fallback over the listening
connections (skipped when psutil is unavailable). -/
def reclaim_port (port : Nat) : M FState Unit := do
  port_wait port 10
  let pa ← psutilAvail
  if pa then do
    let conns ← netConnsM
    kill_leftovers port conns
  else pure ()

/-- The not-already-current path of switch_backend: disconnect the held
driver if any, wait for the SOCKS5 port release (bounded), force-kill
leftover listeners, reset the factory state and environment to the new
backend, and build the fresh driver via get_instance. -/
def do_switch (new_backend : String) : M FState (Except String Drv) := do
  let s ← getSt
  match s.inst with
  | some d => do
    let r ← runDrv BackendUsque.disconnect BackendOfficial.disconnect d
    modSt (fun st => { st with inst := some r.2 })
  | none => pure ()
  let s2 ← getSt
  reclaim_port s2.socks5_port
  modSt (fun st => { st with envBackend := some new_backend, inst := none, current := none })
  get_instance none

/-- WarpController.switch_backend: reject invalid names, return the held
instance unchanged when already on the requested backend, otherwise run
the teardown-and-rebuild path. -/
def switch_backend (new_backend : String) : M FState (Except String Drv) := do
  if new_backend ≠ "usque" ∧ new_backend ≠ "official" then
    pure (Except.error ("Invalid backend: " ++ new_backend))
  else do
    let s ← getSt
    let current := s.current.getD (s.envBackend.getD "usque")
    match s.inst with
    | some d =>
      if current = new_backend then pure (Except.ok d)
      else do_switch new_backend
    | none => do_switch new_backend

/-- WarpController.get_current_backend. -/
def get_current_backend (s : FState) : String :=
  s.current.getD (s.envBackend.getD "usque")

/-- The driver instance get_instance builds for a backend name. -/
def freshDrv (backend : String) (port : Nat) : Drv :=
  if backend = "usque" then .usque (BackendUsque.mkState "/var/lib/warp/config.json" port)
  else .official (BackendOfficial.mkState port)

end Factory

/-! ## controller-app/app/usque_controller.py — UsqueController

The controller-app variant of the usque driver (subprocess.run based,
proxy plus TUN modes).  The methods the claims exercise are embedded:
disconnect with its TUN routing cleanup, the connectivity checks, and the
status cache. -/

namespace CtrlUsque

/-- Instance state (plus the class-level status cache fields). -/
structure CUState where
  config_path : String
  socks5_port : Nat
  http_port : Nat
  processSome : Bool
  cached_ip_info : Option IpInfo
  cache_time : Int
  mode : String
  status_cache : Option StatusRec
  status_cache_time : Int
deriving DecidableEq

/-- UsqueController.__init__ (with the WARP_MODE environment value as the
initial mode). -/
def mkState (socks5_port http_port : Nat) (envMode : String) : CUState :=
  { config_path := "/var/lib/warp/config.json", socks5_port := socks5_port
    http_port := http_port, processSome := false
    cached_ip_info := none, cache_time := 0, mode := envMode
    status_cache := none, status_cache_time := 0 }

/-- _invalidate_status_cache. -/
def inval (s : CUState) : CUState :=
  { s with status_cache := none, status_cache_time := 0 }

/-- subprocess.run without check: none when the spawn raised, otherwise
the completed (returncode, stdout, stderr). -/
def runRaw (cmd : String) : M σ (Option (Int × String × String)) := do
  let r ← spawn cmd
  match r with
  | .ok rc out err => pure (some (rc, out, err))
  | _ => pure none

/-- UsqueController._is_port_open: ss query plus substring test; false on
a raised query. -/
def is_port_open (port : Nat) : M CUState Bool := do
  let r? ← runRaw ("ss -lnt sport = :" ++ toString port)
  match r? with
  | none => pure false
  | some r => pure (strContains r.2.1 (":" ++ toString port))

/-- UsqueController._is_proxy_connected. -/
def is_proxy_connected : M CUState Bool := do
  let r? ← runRaw "supervisorctl status usque"
  match r? with
  | none => pure false
  | some r =>
    if r.1 ≠ 0 ∨ ¬ strContains r.2.1 "RUNNING" then pure false
    else do
      let s ← getSt
      is_port_open s.socks5_port

/-- UsqueController._tun_interface_exists. -/
def tun_interface_exists : M CUState Bool := do
  let r? ← runRaw "ip link show type tun"
  match r? with
  | none => pure false
  | some r => pure (strContains r.2.1 "tun")

/-- UsqueController._is_tun_connected. -/
def is_tun_connected : M CUState Bool := do
  let r? ← runRaw "supervisorctl status usque-tun"
  match r? with
  | none => pure false
  | some r =>
    if r.1 ≠ 0 ∨ ¬ strContains r.2.1 "RUNNING" then pure false
    else tun_interface_exists

/-- UsqueController.is_connected: per-mode connectivity check. -/
def is_connected : M CUState Bool := do
  let s ← getSt
  if s.mode = "tun" then is_tun_connected else is_proxy_connected

/-- The per-line body of _cleanup_tun_routing: delete every policy rule
whose `ip rule show` line mentions lookup 100; a malformed line (the token
after `from` missing) raises IndexError, aborting the whole cleanup via
its except (returns false here). -/
def cleanup_rules_loop : List String → M CUState Bool
  | [] => pure true
  | line :: rest => do
    if strContains line "lookup 100" then
      let parts := pyWords line
      if parts.contains "from" then
        match afterTok parts "from" with
        | some ip => do
          let r? ← runRaw ("ip rule del from " ++ ip ++ " lookup 100")
          match r? with
          | none => pure false
          | some _ => cleanup_rules_loop rest
        | none => pure false
      else cleanup_rules_loop rest
    else cleanup_rules_loop rest

/-- UsqueController._cleanup_tun_routing: enumerate and delete the
lookup-100 policy rules, flush table 100, and delete the endpoint
anti-loop route when an endpoint is configured; every failure is swallowed
(the surrounding except: pass). -/
def cleanup_tun_routing : M CUState Unit := do
  let r? ← runRaw "ip rule show"
  match r? with
  | none => pure ()
  | some r => do
    let ok ← cleanup_rules_loop (pySplitOn (pyTrim r.2.1) "\n")
    if ¬ ok then pure ()
    else do
      let f? ← runRaw "ip route flush table 100 2>/dev/null"
      match f? with
      | none => pure ()
      | some _ => do
        let ep ← endpointLookup
        match ep with
        | some endpoint => do
          let _ ← runRaw ("ip route del " ++ endpoint ++ "/32 2>/dev/null")
          pure ()
        | none => pure ()

/-- UsqueController.disconnect: stop all four services (a raised stop is
caught and yields false), clean up the TUN routing, drop the process
handle, invalidate the status cache and report success. -/
def disconnect : M CUState Bool := do
  let r1 ← runRaw "supervisorctl stop tun-proxy"
  match r1 with
  | none => pure false
  | some _ => do
    let r2 ← runRaw "supervisorctl stop http-proxy"
    match r2 with
    | none => pure false
    | some _ => do
      let r3 ← runRaw "supervisorctl stop usque-tun"
      match r3 with
      | none => pure false
      | some _ => do
        let r4 ← runRaw "supervisorctl stop usque"
        match r4 with
        | none => pure false
        | some _ => do
          cleanup_tun_routing
          modSt (fun s => { s with processSome := false })
          modSt inval
          pure true

/-- UsqueController._get_status_uncached: base record (protocol pinned to
MASQUE), upgraded with the 120s-cached or freshly fetched geolocation when
connected. -/
def get_status_uncached : M CUState StatusRec := do
  let s ← getSt
  let base : StatusRec :=
    { backend := "usque", status := "disconnected"
      ip := "Unknown", location := "Unknown", city := "Unknown"
      country := "Unknown", isp := "Cloudflare WARP"
      warp_protocol := "MASQUE", warp_mode := s.mode
      connection_time := "Unknown", network_type := "Unknown"
      proxy_address := "socks5://127.0.0.1:" ++ toString s.socks5_port
      http_proxy_address := some ("http://127.0.0.1:" ++ toString s.http_port)
      details_isp := none }
  let c ← is_connected
  if ¬ c then do
    modSt (fun st => { st with cached_ip_info := none })
    pure base
  else do
    let conn := { base with status := "connected" }
    let n ← now
    let s2 ← getSt
    match s2.cached_ip_info with
    | some info =>
      if n - s2.cache_time < 120 then pure (conn.updIp info)
      else do
        let fresh ← ipLookup
        match fresh with
        | some i => do
          modSt (fun st => { st with cached_ip_info := some i, cache_time := n })
          pure (conn.updIp i)
        | none => pure (conn.updIp info)
    | none => do
      let fresh ← ipLookup
      match fresh with
      | some i => do
        modSt (fun st => { st with cached_ip_info := some i, cache_time := n })
        pure (conn.updIp i)
      | none => pure conn

/-- UsqueController.get_status: serve the cached record while strictly
younger than the 8s TTL, else recompute and store. -/
def get_status : M CUState StatusRec := do
  let n ← now
  let s ← getSt
  match s.status_cache with
  | some c =>
    if n - s.status_cache_time < 8 then pure c
    else do
      let st ← get_status_uncached
      modSt (fun x => { x with status_cache := some st, status_cache_time := n })
      pure st
  | none => do
    let st ← get_status_uncached
    modSt (fun x => { x with status_cache := some st, status_cache_time := n })
    pure st

end CtrlUsque

/-! ## controller-app/app/official_controller.py — OfficialController

The controller-app variant of the official driver: proxy and TUN modes,
MASQUE or WireGuard protocol, TUN policy routing. -/

namespace CtrlOfficial

/-- Instance state (plus the class-level status cache fields and the saved
original-route triple). -/
structure COState where
  socks5_port : Nat
  http_port : Nat
  mute_backend_logs : Bool
  preferred_protocol : String
  mode : String
  cached_ip_info : Option IpInfo
  cache_time : Int
  saved_gateway : Option String
  saved_interface : Option String
  saved_ip : Option String
  status_cache : Option StatusRec
  status_cache_time : Int
deriving DecidableEq

/-- OfficialController.__init__ (with the WARP_MODE environment value as
the initial mode). -/
def mkState (socks5_port http_port : Nat) (envMode : String) : COState :=
  { socks5_port := socks5_port, http_port := http_port
    mute_backend_logs := false, preferred_protocol := "masque"
    mode := envMode, cached_ip_info := none, cache_time := 0
    saved_gateway := none, saved_interface := none, saved_ip := none
    status_cache := none, status_cache_time := 0 }

/-- _invalidate_status_cache. -/
def inval (s : COState) : COState :=
  { s with status_cache := none, status_cache_time := 0 }

/-- subprocess.run without check: none when the spawn raised. -/
def runRaw (cmd : String) : M COState (Option (Int × String × String)) := do
  let r ← spawn cmd
  match r with
  | .ok rc out err => pure (some (rc, out, err))
  | _ => pure none

/-- OfficialController.execute_command: shell out with a 10s limit; a
nonzero exit, timeout or exception becomes None, success the stripped
stdout. -/
def execute_command (cmd : String) : M COState (Option String) := do
  let r ← spawn cmd
  match r with
  | .ok rc out _ => if rc ≠ 0 then pure none else pure (some (pyTrim out))
  | _ => pure none

/-- OfficialController._is_port_open. -/
def is_port_open (port : Nat) : M COState Bool := do
  let r? ← runRaw ("ss -lnt sport = :" ++ toString port)
  match r? with
  | none => pure false
  | some r => pure (strContains r.2.1 (":" ++ toString port))

/-- OfficialController._is_daemon_responsive. -/
def is_daemon_responsive : M COState Bool := do
  let r? ← runRaw "supervisorctl status warp-svc"
  match r? with
  | none => pure false
  | some r =>
    if r.1 ≠ 0 ∨ ¬ strContains r.2.1 "RUNNING" then pure false
    else do
      let r2? ← runRaw "warp-cli --accept-tos status"
      match r2? with
      | none => pure false
      | some r2 => pure (r2.1 == 0)

/-- OfficialController._check_daemon_running. -/
def check_daemon_running : M COState Bool := is_daemon_responsive

/-- OfficialController.is_connected. -/
def is_connected : M COState Bool := do
  let d ← check_daemon_running
  if ¬ d then pure false
  else do
    let r? ← runRaw "warp-cli --accept-tos status"
    match r? with
    | none => pure false
    | some r =>
      if r.1 ≠ 0 then pure false
      else
        pure (strContains (pyLower r.2.1) "connected"
          ∧ ¬ strContains (pyLower r.2.1) "disconnected")

/-- OfficialController.wait_for_status: one is_connected poll per
iteration (the source sleeps 2s between polls inside a wall-clock bound of
`timeout` seconds; the fuel bounds the polls). -/
def wait_for_status (target : String) : Nat → M COState Bool
  | 0 => pure false
  | fuel + 1 => do
    let c ← is_connected
    if (target = "connected" ∧ c) ∨ (target = "disconnected" ∧ ¬ c) then do
      modSt inval
      pure true
    else do
      sleep
      wait_for_status target fuel

/-- OfficialController._stop_services: stop tun-proxy, http-proxy, socat
and warp-svc in order; a raised stop aborts the remainder silently. -/
def stop_services : M COState Unit := do
  let r1 ← runRaw "supervisorctl stop tun-proxy"
  match r1 with
  | none => pure ()
  | some _ => do
    let r2 ← runRaw "supervisorctl stop http-proxy"
    match r2 with
    | none => pure ()
    | some _ => do
      let r3 ← runRaw "supervisorctl stop socat"
      match r3 with
      | none => pure ()
      | some _ => do
        let _ ← runRaw "supervisorctl stop warp-svc"
        pure ()

/-- OfficialController._configure_warp_proxy. -/
def configure_warp_proxy : M COState Bool := do
  let ex ← fileExists "/var/lib/cloudflare-warp/reg.json"
  if ¬ ex then do
    let _ ← execute_command "warp-cli --accept-tos registration delete"
    let _ ← execute_command "warp-cli --accept-tos registration new"
    pure ()
  let _ ← execute_command "warp-cli --accept-tos tunnel protocol set MASQUE"
  let _ ← execute_command "warp-cli --accept-tos mode proxy"
  let _ ← execute_command "warp-cli --accept-tos proxy port 40001"
  pure true

/-- OfficialController._configure_warp_tun. -/
def configure_warp_tun : M COState Bool := do
  let ex ← fileExists "/var/lib/cloudflare-warp/reg.json"
  if ¬ ex then do
    let _ ← execute_command "warp-cli --accept-tos registration delete"
    let _ ← execute_command "warp-cli --accept-tos registration new"
    pure ()
  let s ← getSt
  let proto_name := if s.preferred_protocol = "wireguard" then "WireGuard" else "MASQUE"
  let _ ← execute_command ("warp-cli --accept-tos tunnel protocol set " ++ proto_name)
  let _ ← execute_command "warp-cli --accept-tos mode warp"
  pure true

/-- OfficialController._ensure_socat: proxy mode only; restart socat when
it is not RUNNING with the port listening. -/
def ensure_socat : M COState Unit := do
  let s ← getSt
  if s.mode ≠ "proxy" then pure ()
  else do
    let r? ← runRaw "supervisorctl status socat"
    let sys_active :=
      match r? with
      | some r => r.1 == 0 && strContains r.2.1 "RUNNING"
      | none => false
    let port_open ← is_port_open s.socks5_port
    if sys_active && port_open then pure ()
    else do
      let st? ← runRaw "supervisorctl start socat"
      match st? with
      | none => pure ()
      | some st =>
        if st.1 ≠ 0 then pure ()
        else do
          sleep
          let p ← is_port_open s.socks5_port
          if ¬ p then sleep
          else pure ()

/-- OfficialController._start_http_proxy. -/
def start_http_proxy : M COState Unit := do
  let r? ← runRaw "supervisorctl status http-proxy"
  match r? with
  | none => pure ()
  | some r =>
    if strContains r.2.1 "RUNNING" then pure ()
    else do
      let _ ← runRaw "supervisorctl start http-proxy"
      pure ()

/-- The port polling loop of _start_tun_proxy (10 half-second polls). -/
def tun_proxy_wait : Nat → M COState Unit
  | 0 => pure ()
  | fuel + 1 => do
    let s ← getSt
    let p ← is_port_open s.socks5_port
    if p then pure ()
    else do
      sleep
      tun_proxy_wait fuel

/-- OfficialController._start_tun_proxy. -/
def start_tun_proxy : M COState Unit := do
  let r? ← runRaw "supervisorctl status tun-proxy"
  match r? with
  | none => pure ()
  | some r =>
    if strContains r.2.1 "RUNNING" then pure ()
    else do
      let st? ← runRaw "supervisorctl start tun-proxy"
      match st? with
      | none => pure ()
      | some _ => tun_proxy_wait 10

/-- The daemon readiness loop of the service starters (30 polls). -/
def svc_wait (cfg : M COState Bool) : Nat → M COState Bool
  | 0 => pure false
  | fuel + 1 => do
    let d ← is_daemon_responsive
    if d then cfg
    else do
      sleep
      svc_wait cfg fuel

/-- OfficialController._start_services_proxy: start warp-svc (a nonzero
exit or raise fails), ensure socat, then wait for daemon readiness and
configure proxy mode. -/
def start_services_proxy : M COState Bool := do
  modSt (fun s => { s with mute_backend_logs := false })
  let r? ← runRaw "supervisorctl start warp-svc"
  match r? with
  | none => pure false
  | some r =>
    if r.1 ≠ 0 then pure false
    else do
      sleep
      ensure_socat
      svc_wait configure_warp_proxy 30

/-- OfficialController._start_services_tun. -/
def start_services_tun : M COState Bool := do
  modSt (fun s => { s with mute_backend_logs := false })
  let r? ← runRaw "supervisorctl start warp-svc"
  match r? with
  | none => pure false
  | some r =>
    if r.1 ≠ 0 then pure false
    else do
      sleep
      svc_wait configure_warp_tun 30

/-- The interface-address phase of _save_original_route: the first line of
`ip -4 -o addr show` containing "inet " yields the saved source IP. -/
def firstInetIp : List String → Option String
  | [] => none
  | line :: rest =>
    if strContains line "inet " then
      some ((pySplitOn ((pySplitOn line "inet ").getD 1 "") "/").headD "")
    else firstInetIp rest

/-- The saved-IP phase of _save_original_route, gated on a saved
interface. -/
def save_ip_phase : M COState Unit := do
  let s ← getSt
  match s.saved_interface with
  | none => pure ()
  | some iface => do
    let r? ← runRaw ("ip -4 -o addr show dev " ++ iface)
    match r? with
    | none => pure ()
    | some r =>
      match firstInetIp (pySplitOn (pyTrim r.2.1) "\n") with
      | some ip => modSt (fun st => { st with saved_ip := some ip })
      | none => pure ()

/-- OfficialController._save_original_route: parse the default route line
for gateway and device (an IndexError mid-assignment aborts, keeping any
fields already written), then read the primary address of the device. -/
def save_original_route : M COState Unit := do
  let r? ← runRaw "ip route show default"
  match r? with
  | none => pure ()
  | some r =>
    let parts := pyWords ((pySplitOn (pyTrim r.2.1) "\n").headD "")
    if parts.contains "via" ∧ parts.contains "dev" then
      match afterTok parts "via" with
      | none => pure ()
      | some gw => do
        modSt (fun st => { st with saved_gateway := some gw })
        match afterTok parts "dev" with
        | none => pure ()
        | some iface => do
          modSt (fun st => { st with saved_interface := some iface })
          save_ip_phase
    else save_ip_phase

/-- The connected-subnet copy loop of _apply_tun_routing: for each listed
scope-link route, copy its subnet into table 100; a raised command aborts
the enclosing try. -/
def copy_subnets (iface : String) : List String → M COState Bool
  | [] => pure true
  | line :: rest => do
    match (pyWords line).head? with
    | some subnet => do
      let r? ← runRaw ("ip route add " ++ subnet ++ " dev " ++ iface ++ " table 100")
      match r? with
      | none => pure false
      | some _ => copy_subnets iface rest
    | none => copy_subnets iface rest

/-- The nftables readiness poll of _apply_tun_routing (10 half-second
polls for the cloudflare-warp table). -/
def nft_table_wait : Nat → M COState Bool
  | 0 => pure false
  | fuel + 1 => do
    let r? ← runRaw "nft list table inet cloudflare-warp 2>/dev/null"
    match r? with
    | none => pure false
    | some r =>
      if r.1 == 0 ∧ strContains r.2.1 "cloudflare-warp" then pure true
      else do
        sleep
        nft_table_wait fuel

/-- One attempt of the nftables rule insertion of _apply_tun_routing: the
three inbound port accepts and the outbound accept, then a verification
grep; a raise aborts (none), otherwise reports whether the rules were
seen. -/
def nft_insert_attempt (iface : String) : M COState (Option Bool) := do
  let a ← runRaw ("nft insert rule inet cloudflare-warp input iif \"" ++ iface
      ++ "\" tcp dport 8000 accept 2>/dev/null")
  match a with
  | none => pure none
  | some _ => do
    let b ← runRaw ("nft insert rule inet cloudflare-warp input iif \"" ++ iface
        ++ "\" tcp dport 1080 accept 2>/dev/null")
    match b with
    | none => pure none
    | some _ => do
      let c ← runRaw ("nft insert rule inet cloudflare-warp input iif \"" ++ iface
          ++ "\" tcp dport 8080 accept 2>/dev/null")
      match c with
      | none => pure none
      | some _ => do
        let d ← runRaw ("nft insert rule inet cloudflare-warp output oif \"" ++ iface
            ++ "\" accept 2>/dev/null")
        match d with
        | none => pure none
        | some _ => do
          let v ← runRaw ("nft list chain inet cloudflare-warp input 2>/dev/null | grep -q iif \""
              ++ iface ++ "\"")
          match v with
          | none => pure none
          | some r => pure (some (r.1 == 0))

/-- The bounded retry (3 attempts) around nft_insert_attempt. -/
def nft_insert_retry (iface : String) : Nat → M COState Unit
  | 0 => pure ()
  | fuel + 1 => do
    let a ← nft_insert_attempt iface
    match a with
    | none => pure ()
    | some true => pure ()
    | some false => do
      sleep
      nft_insert_retry iface fuel

/-- OfficialController._apply_tun_routing: given a complete saved route
triple, build bypass table 100, add the policy rule for the saved source
IP, wait for the WARP nftables table and insert the panel allow rules. -/
def apply_tun_routing : M COState Unit := do
  let s ← getSt
  match s.saved_gateway, s.saved_interface, s.saved_ip with
  | some gw, some iface, some ip => do
    -- Python tests the three fields for truthiness, so empty strings also bail out.
    if gw = "" ∨ iface = "" ∨ ip = "" then pure ()
    else do
    let r1 ← runRaw ("ip route add default via " ++ gw ++ " dev " ++ iface ++ " table 100")
    match r1 with
    | none => pure ()
    | some _ => do
      let r2 ← runRaw ("ip route show dev " ++ iface ++ " scope link")
      match r2 with
      | none => pure ()
      | some r => do
        let ok ← copy_subnets iface (pySplitOn (pyTrim r.2.1) "\n")
        if ¬ ok then pure ()
        else do
          let r3 ← runRaw ("ip rule add from " ++ ip ++ " lookup 100")
          match r3 with
          | none => pure ()
          | some _ => do
            let ready ← nft_table_wait 10
            if ready then nft_insert_retry iface 3
            else pure ()
  | _, _, _ => pure ()

/-- OfficialController._cleanup_tun_routing: delete the lookup-100 policy
rules and flush table 100; failures are swallowed. -/
def cleanup_rules_loop : List String → M COState Bool
  | [] => pure true
  | line :: rest => do
    if strContains line "lookup 100" then
      let parts := pyWords line
      if parts.contains "from" then
        match afterTok parts "from" with
        | some rule_ip => do
          let r? ← runRaw ("ip rule del from " ++ rule_ip ++ " lookup 100")
          match r? with
          | none => pure false
          | some _ => cleanup_rules_loop rest
        | none => pure false
      else cleanup_rules_loop rest
    else cleanup_rules_loop rest

/-- OfficialController._cleanup_tun_routing. -/
def cleanup_tun_routing : M COState Unit := do
  let r? ← runRaw "ip rule show"
  match r? with
  | none => pure ()
  | some r => do
    let ok ← cleanup_rules_loop (pySplitOn (pyTrim r.2.1) "\n")
    if ¬ ok then pure ()
    else do
      let _ ← runRaw "ip route flush table 100 2>/dev/null"
      pure ()

/-- OfficialController._connect_proxy: restart the services when the
daemon is unresponsive, ensure socat, configure and connect the client,
wait (long bound) for the connected condition, then start the HTTP
proxy. -/
def connect_proxy : M COState Bool := do
  let d ← is_daemon_responsive
  let okServices ←
    if ¬ d then do
      stop_services
      start_services_proxy
    else pure true
  if ¬ okServices then pure false
  else do
    ensure_socat
    let _ ← execute_command "warp-cli --accept-tos mode proxy"
    let _ ← execute_command "warp-cli --accept-tos proxy port 40001"
    let _ ← execute_command "warp-cli --accept-tos tunnel protocol set MASQUE"
    let _ ← execute_command "warp-cli --accept-tos connect"
    sleep
    let w ← wait_for_status "connected" 600
    if w then do
      modSt (fun s => { s with mute_backend_logs := true })
      modSt inval
      start_http_proxy
      pure true
    else pure false

/-- OfficialController._connect_tun: restart the services when needed,
save the original route, set mode warp and the preferred protocol,
connect, wait (long bound), then apply the TUN policy routing and start
the TUN proxy. -/
def connect_tun : M COState Bool := do
  let d ← is_daemon_responsive
  let okServices ←
    if ¬ d then do
      stop_services
      start_services_tun
    else pure true
  if ¬ okServices then pure false
  else do
    save_original_route
    let _ ← execute_command "warp-cli --accept-tos mode warp"
    let s ← getSt
    let proto_name := if s.preferred_protocol = "wireguard" then "WireGuard" else "MASQUE"
    let _ ← execute_command ("warp-cli --accept-tos tunnel protocol set " ++ proto_name)
    let _ ← execute_command "warp-cli --accept-tos connect"
    sleep
    let w ← wait_for_status "connected" 600
    if w then do
      modSt (fun st => { st with mute_backend_logs := true })
      modSt inval
      sleep
      apply_tun_routing
      start_tun_proxy
      pure true
    else pure false

/-- OfficialController.connect: dispatch on the current mode. -/
def connect : M COState Bool := do
  let s ← getSt
  if s.mode = "tun" then connect_tun else connect_proxy

/-- OfficialController.disconnect: drop the ip cache and status cache,
clean up TUN routing when in TUN mode, issue the best-effort client
disconnect and short wait, then stop all services; always succeeds. -/
def disconnect : M COState Bool := do
  modSt (fun s => { s with cached_ip_info := none })
  modSt inval
  let s ← getSt
  if s.mode = "tun" then cleanup_tun_routing
  else pure ()
  let _ ← execute_command "warp-cli --accept-tos disconnect"
  let _ ← wait_for_status "disconnected" 5
  stop_services
  pure true

/-- OfficialController.set_mode: validate, no-op on an unchanged mode,
downgrade WireGuard to MASQUE when leaving TUN for proxy, disconnect the
previous mode (with extra TUN cleanup), then flip the mode flag and the
WARP_MODE environment value. -/
def set_mode (mode : String) : M COState Bool := do
  if mode ≠ "proxy" ∧ mode ≠ "tun" then pure false
  else do
    let s ← getSt
    if mode = s.mode then pure true
    else do
      let previous_mode := s.mode
      if mode = "proxy" ∧ s.preferred_protocol = "wireguard" then
        modSt (fun st => { st with preferred_protocol := "masque" })
      else pure ()
      let _ ← disconnect
      if previous_mode = "tun" then do
        cleanup_tun_routing
        sleep
      else pure ()
      sleep
      modSt (fun st => { st with mode := mode })
      event ("[setenv] WARP_MODE=" ++ mode)
      modSt inval
      pure true

/-- OfficialController.get_status (8s TTL on the class-level cache). -/
def get_status_uncached : M COState StatusRec := do
  let s ← getSt
  let base : StatusRec :=
    { backend := "official", status := "disconnected"
      ip := "Unknown", location := "Unknown", city := "Unknown"
      country := "Unknown", isp := "Cloudflare WARP"
      warp_protocol := pyUpper s.preferred_protocol, warp_mode := s.mode
      connection_time := "Unknown", network_type := "Unknown"
      proxy_address := "socks5://127.0.0.1:" ++ toString s.socks5_port
      http_proxy_address := some ("http://127.0.0.1:" ++ toString s.http_port)
      details_isp := none }
  let c ← is_connected
  if ¬ c then do
    modSt (fun st => { st with cached_ip_info := none })
    pure base
  else do
    let conn := { base with status := "connected" }
    let n ← now
    let s2 ← getSt
    match s2.cached_ip_info with
    | some info =>
      if n - s2.cache_time < 120 then pure (conn.updIp info)
      else do
        let fresh ← ipLookup
        match fresh with
        | some i => do
          modSt (fun st => { st with cached_ip_info := some i, cache_time := n })
          pure (conn.updIp i)
        | none => pure (conn.updIp info)
    | none => do
      let fresh ← ipLookup
      match fresh with
      | some i => do
        modSt (fun st => { st with cached_ip_info := some i, cache_time := n })
        pure (conn.updIp i)
      | none => pure conn

/-- OfficialController.get_status. -/
def get_status : M COState StatusRec := do
  let n ← now
  let s ← getSt
  match s.status_cache with
  | some c =>
    if n - s.status_cache_time < 8 then pure c
    else do
      let st ← get_status_uncached
      modSt (fun x => { x with status_cache := some st, status_cache_time := n })
      pure st
  | none => do
    let st ← get_status_uncached
    modSt (fun x => { x with status_cache := some st, status_cache_time := n })
    pure st

/-- OfficialController.rotate_ip_simple: disconnect (which itself performs
the bounded disconnected wait), a short delay, connect, and on success the
bounded connected wait whose outcome is the result. -/
def rotate_ip_simple : M COState Bool := do
  let _ ← disconnect
  sleep
  let c ← connect
  if c then wait_for_status "connected" 15
  else pure false

/-- OfficialController.set_custom_endpoint: set or reset the endpoint,
force a disconnect plus wait, pause, and reconnect. -/
def set_custom_endpoint (endpoint : String) : M COState Bool := do
  let cmd :=
    if endpoint = "" then "warp-cli --accept-tos tunnel endpoint reset"
    else "warp-cli --accept-tos tunnel endpoint set " ++ endpoint
  let _ ← execute_command cmd
  let _ ← execute_command "warp-cli --accept-tos disconnect"
  let _ ← wait_for_status "disconnected" 5
  sleep
  connect

/-- The push phase of set_protocol (the body after the preference has been
stored): best-effort client disconnect plus short wait, push the protocol
to the client (a failed push aborts with false), then stop the services
and reconnect. -/
def set_protocol_push (p : String) : M COState Bool := do
  let _ ← execute_command "warp-cli --accept-tos disconnect"
  let _ ← wait_for_status "disconnected" 5
  let proto_name := if p = "wireguard" then "WireGuard" else "MASQUE"
  let res ← execute_command ("warp-cli --accept-tos tunnel protocol set " ++ proto_name)
  match res with
  | none => pure false
  | some _ => do
    stop_services
    sleep
    connect

/-- OfficialController.set_protocol: validate the protocol name, reject
WireGuard outside TUN mode synchronously, no-op on an unchanged protocol,
otherwise store the preference and run the push phase. -/
def set_protocol (protocol : String) : M COState Bool := do
  let p := pyLower (if protocol = "" then "masque" else protocol)
  if p ≠ "masque" ∧ p ≠ "wireguard" then pure false
  else do
    let s ← getSt
    if p = "wireguard" ∧ s.mode ≠ "tun" then pure false
    else if s.preferred_protocol = p then pure true
    else do
      modSt (fun st => { st with preferred_protocol := p })
      modSt inval
      modSt (fun st => { st with mute_backend_logs := false })
      set_protocol_push p

end CtrlOfficial

/-! ## controller-app/app/linux_tun_manager.py — FirewallSnapshot and
LinuxTunManager -/

/-- FirewallSnapshot: the TCP/UDP port sets and allowed interface names
and patterns captured before the tunnel firewall goes up. -/
structure FirewallSnapshot where
  tcp_ports : Finset Nat
  udp_ports : Finset Nat
  allowed_ifaces : List String
  allowed_iface_patterns : List String
deriving DecidableEq

/-- FirewallSnapshot.merge_ports: add every panel-required port to both
protocol sets. -/
def FirewallSnapshot.merge_ports (snap : FirewallSnapshot) (extra_ports : List Nat) :
    FirewallSnapshot :=
  { snap with
    tcp_ports := extra_ports.foldl (fun s p => insert p s) snap.tcp_ports
    udp_ports := extra_ports.foldl (fun s p => insert p s) snap.udp_ports }

/-- FirewallSnapshot.all_ports. -/
def FirewallSnapshot.all_ports (snap : FirewallSnapshot) : Finset Nat :=
  snap.tcp_ports ∪ snap.udp_ports

namespace TunMgr

/-- LinuxTunManager._run_command: like the backend executor but with no
timeout path of its own; exceptions become (-1, "", str(e)). -/
def run_command (cmd : String) : M Unit (Int × String × String) := do
  let r ← spawn cmd
  match r with
  | .ok rc out err => pure (rc, pyTrim out, pyTrim err)
  | .timeout => pure (-1, "", "Timeout")
  | .exc m => pure (-1, "", m)

/-- shutil.which probe. -/
def whichM (tool : String) : M Unit Bool := fun env k => (env.which tool, k)

/-- Extract the rule handle from one line of `nft -a list chain` output
when the line carries a warppool-prefixed comment: the digit run after the
`# handle ` marker (the findall pattern is anchored inside single lines of
the nft listing). -/
def handleOf (line : String) : Option String :=
  if strContains line "comment \"warppool-" ∧ strContains line "# handle " then
    let seg := (pySplitOn line "# handle ").getD 1 ""
    let d := seg.data.takeWhile Char.isDigit
    if d ≠ [] then some (String.mk d) else none
  else none

/-- The per-handle delete loop of cleanup_nftables_rules. -/
def delete_handles (chain : String) : List String → M Unit Unit
  | [] => pure ()
  | h :: rest => do
    let _ ← run_command ("nft delete rule inet cloudflare-warp " ++ chain ++ " handle " ++ h)
    delete_handles chain rest

/-- One chain of cleanup_nftables_rules: list the chain with handles and
delete every warppool-tagged rule. -/
def cleanup_chain (chain : String) : M Unit Unit := do
  let r ← run_command ("nft -a list chain inet cloudflare-warp " ++ chain)
  if r.1 ≠ 0 then pure ()
  else delete_handles chain ((pySplitOn r.2.1 "\n").filterMap handleOf)

/-- LinuxTunManager.cleanup_nftables_rules: tolerate a missing nft or a
missing cloudflare-warp table, else sweep the three chains. -/
def cleanup_nftables_rules : M Unit Unit := do
  let w ← whichM "nft"
  if ¬ w then pure ()
  else do
    let r ← run_command "nft list table inet cloudflare-warp"
    if r.1 ≠ 0 then pure ()
    else do
      cleanup_chain "input"
      cleanup_chain "output"
      cleanup_chain "forward"

/-- The table readiness poll of apply_nftables_allow_rules (10 polls). -/
def table_wait : Nat → M Unit Bool
  | 0 => pure false
  | fuel + 1 => do
    let r ← run_command "nft list table inet cloudflare-warp"
    if r.1 == 0 then pure true
    else do
      sleep
      table_wait fuel

/-- The inbound TCP allow loop. -/
def insert_tcp_rules : List Nat → M Unit Unit
  | [] => pure ()
  | p :: rest => do
    let _ ← run_command ("nft insert rule inet cloudflare-warp input tcp dport "
        ++ toString p ++ " accept comment warppool-allow-tcp-" ++ toString p)
    insert_tcp_rules rest

/-- The inbound UDP allow loop. -/
def insert_udp_rules : List Nat → M Unit Unit
  | [] => pure ()
  | p :: rest => do
    let _ ← run_command ("nft insert rule inet cloudflare-warp input udp dport "
        ++ toString p ++ " accept comment warppool-allow-udp-" ++ toString p)
    insert_udp_rules rest

/-- The preserved-interface loop (lo and docker-prefixed names are
already covered by the fixed rules and skipped). -/
def insert_iface_rules : List String → M Unit Unit
  | [] => pure ()
  | iface :: rest => do
    if iface = "lo" ∨ segPre "docker".data iface.data then pure ()
    else do
      let _ ← run_command ("nft insert rule inet cloudflare-warp input iifname " ++ iface
          ++ " accept comment warppool-preserved-iface-" ++ iface)
      pure ()
    insert_iface_rules rest

/-- The preserved-pattern loop. -/
def insert_pattern_rules : List String → M Unit Unit
  | [] => pure ()
  | pat :: rest => do
    if segPre "docker".data pat.data then pure ()
    else do
      let _ ← run_command ("nft insert rule inet cloudflare-warp input iifname " ++ pat
          ++ " accept comment warppool-preserved-pattern-" ++ pat)
      pure ()
    insert_pattern_rules rest

/-- The fixed docker/bridge/veth forward rules, emitted when the forward
chain exists. -/
def insert_forward_rules : M Unit Unit := do
  let _ ← run_command "nft insert rule inet cloudflare-warp forward iifname docker* accept comment warppool-forward-docker-in"
  let _ ← run_command "nft insert rule inet cloudflare-warp forward oifname docker* accept comment warppool-forward-docker-out"
  let _ ← run_command "nft insert rule inet cloudflare-warp forward iifname br-* accept comment warppool-forward-bridge-in"
  let _ ← run_command "nft insert rule inet cloudflare-warp forward oifname br-* accept comment warppool-forward-bridge-out"
  let _ ← run_command "nft insert rule inet cloudflare-warp forward iifname veth* accept comment warppool-forward-veth-in"
  let _ ← run_command "nft insert rule inet cloudflare-warp forward oifname veth* accept comment warppool-forward-veth-out"
  pure ()

/-- The cleanup plus fixed-rule segment of apply_nftables_allow_rules:
sweep our old rules, probe the forward chain, insert the established,
loopback and docker/bridge/veth accepts (with the forward variants when
the forward chain exists), the preserved snapshot interfaces and patterns,
and the controller output accept. -/
def insert_fixed_rules (interface : String)
    (extra_ifaces extra_iface_patterns : List String) : M Unit Unit := do
  cleanup_nftables_rules
  let f ← run_command "nft list chain inet cloudflare-warp forward"
  let forward_chain_exists := f.1 == 0
  let _ ← run_command "nft insert rule inet cloudflare-warp input ct state established,related accept comment warppool-allow-established"
  if forward_chain_exists then do
    let _ ← run_command "nft insert rule inet cloudflare-warp forward ct state established,related accept comment warppool-allow-forward-established"
    pure ()
  let _ ← run_command "nft insert rule inet cloudflare-warp input iifname lo accept comment warppool-allow-loopback"
  let _ ← run_command "nft insert rule inet cloudflare-warp input iifname docker* accept comment warppool-allow-docker"
  let _ ← run_command "nft insert rule inet cloudflare-warp input iifname br-* accept comment warppool-allow-bridge"
  let _ ← run_command "nft insert rule inet cloudflare-warp input iifname veth* accept comment warppool-allow-veth"
  if forward_chain_exists then insert_forward_rules
  insert_iface_rules extra_ifaces
  insert_pattern_rules extra_iface_patterns
  let _ ← run_command ("nft insert rule inet cloudflare-warp output oif " ++ interface
      ++ " accept comment warppool-controller-output")
  pure ()

/-- LinuxTunManager.apply_nftables_allow_rules: wait for the WARP table;
merge the snapshot ports with the panel ports (or use the panel ports for
both protocols without a snapshot); insert the fixed and preserved
accepts, then one inbound accept per TCP and per UDP port. -/
def apply_nftables_allow_rules (interface : String) (ports : List Nat)
    (snapshot : Option FirewallSnapshot) : M Unit Unit := do
  let w ← whichM "nft"
  if ¬ w then pure ()
  else do
    let ready ← table_wait 10
    if ¬ ready then pure ()
    else do
      let (tcp_ports, udp_ports, extra_ifaces, extra_iface_patterns) :=
        match snapshot with
        | some snap0 =>
          let snap := snap0.merge_ports ports
          (snap.tcp_ports.sort (· ≤ ·), snap.udp_ports.sort (· ≤ ·),
           snap.allowed_ifaces, snap.allowed_iface_patterns)
        | none => (ports, ports, [], [])
      insert_fixed_rules interface extra_ifaces extra_iface_patterns
      insert_tcp_rules tcp_ports
      insert_udp_rules udp_ports

/-! ### LinuxTunManager._parse_port_spec -/

/-- Tail of the Python int() digit grammar: digits with single underscores
strictly between digits. -/
def pyDigitRest : List Char → Bool
  | [] => true
  | c :: t =>
    if c = '_' then
      match t with
      | [] => false
      | d :: t2 => d.isDigit && pyDigitRest t2
    else c.isDigit && pyDigitRest t

/-- The Python int() digit part: nonempty, leading digit, underscores only
between digits. -/
def pyDigitPart : List Char → Bool
  | [] => false
  | c :: t => c.isDigit && pyDigitRest t

/-- Numeric value of a digit list (underscores removed). -/
def natOfDigits (l : List Char) : Nat :=
  (l.filter (fun c => c ≠ '_')).foldl (fun n c => 10 * n + (c.toNat - 48)) 0

/-- Python int(str): strip, optional sign, digit part with underscores;
None models the ValueError. -/
def pyInt (s : String) : Option Int :=
  let l := (pyTrim s).data
  match l with
  | '+' :: rest => if pyDigitPart rest then some (natOfDigits rest) else none
  | '-' :: rest => if pyDigitPart rest then some (-(natOfDigits rest : Int)) else none
  | rest => if pyDigitPart rest then some (natOfDigits rest) else none

/-- The range regex of _parse_port_spec, `^(\d+)\s*[-:]\s*(\d+)$`: leading
digits, optional whitespace, a dash or colon separator, optional
whitespace, trailing digits.  (The separator and whitespace classes are
digit-free, so maximal-munch scanning is equivalent to the regex.) -/
def rangeMatch (s : String) : Option (Nat × Nat) :=
  let l := s.data
  let d1 := l.takeWhile Char.isDigit
  let r1 := l.dropWhile Char.isDigit
  if d1 = [] then none
  else
    match r1.dropWhile Char.isWhitespace with
    | [] => none
    | c :: rest =>
      if c = '-' ∨ c = ':' then
        let r3 := rest.dropWhile Char.isWhitespace
        let d2 := r3.takeWhile Char.isDigit
        if d2 ≠ [] ∧ r3.dropWhile Char.isDigit = [] then
          some (natOfDigits d1, natOfDigits d2)
        else none
      else none

/-- LinuxTunManager._parse_port_spec: strip; empty yields the empty set; a
range a-b or a:b yields the integers of [a, b] clipped to valid ports; a
Python-int-parsable value yields its singleton when in the valid port
range; everything else (or an unparsable value) yields the empty set.
Total: the ValueError of int() is caught in the source. -/
def parse_port_spec (spec : String) : Finset Nat :=
  let s := pyTrim spec
  if s = "" then ∅
  else
    match rangeMatch s with
    | some (lo, hi) => (Finset.Icc lo hi).filter (fun p => 1 ≤ p ∧ p ≤ 65535)
    | none =>
      match pyInt s with
      | some v => if 1 ≤ v ∧ v ≤ 65535 then {v.toNat} else ∅
      | none => ∅

end TunMgr

/-! ## Concrete worlds used by witnesses and counterexamples -/

/-- A neutral world: every command completes with exit code 0 and empty
output, files exist, tools are found, ports are free, the clock stands
still. -/
def quietEnv : Env :=
  { run := fun _ _ => .ok 0 "" ""
    fileExists := fun _ _ => true
    which := fun _ => true
    portBusy := fun _ _ => false
    netConns := []
    psutilOk := true
    timeAt := fun _ => 0
    ipApi := fun _ => none
    cfgEndpoint := fun _ => none
    readFile := fun _ _ => none
    binPath := fun n => "/usr/local/bin/" ++ n }

/-- A world in which the usque proxy backend looks healthy, but the only
listening socket reported by ss is on port 10800, not 1080. -/
def env10800 : Env :=
  { quietEnv with
    run := fun _ c =>
      if c = "supervisorctl status usque" then .ok 0 "usque RUNNING pid 7, uptime 0:01:00" ""
      else if c = "ss -lnt sport = :1080" then .ok 0 "LISTEN 0 4096 0.0.0.0:10800 0.0.0.0:*" ""
      else .ok 0 "" "" }

/-- A world in which the official backend is fully up and already
connected: warp-svc RUNNING, warp-cli answering, status Connected, socat
RUNNING with the port listening, registration present. -/
def envOffConnected : Env :=
  { quietEnv with
    run := fun _ c =>
      if c = "supervisorctl status warp-svc" then .ok 0 "warp-svc RUNNING pid 5, uptime 1:00:00" ""
      else if c = "warp-cli --accept-tos status" then .ok 0 "Status update: Connected" ""
      else if c = "supervisorctl status socat" then .ok 0 "socat RUNNING pid 6, uptime 1:00:00" ""
      else if c = "ss -lnt sport = :1080" then .ok 0 "LISTEN 0 4096 0.0.0.0:1080 0.0.0.0:*" ""
      else .ok 0 "" ""
    fileExists := fun _ _ => true }

/-- The port number of one whitespace token of ss output: the decimal
value after the last colon (none when absent or non-numeric).  Used to
state that an ss listing mentions no socket actually bound to a port. -/
def tokenPort (w : String) : Option Nat :=
  ((pySplitOn w ":").getLast?).bind (fun t =>
    if t.data ≠ [] ∧ t.data.all Char.isDigit then some (TunMgr.natOfDigits t.data) else none)

/-- A world in which the usque backend proxy is up: service RUNNING and
the SOCKS5 port 1080 listening. -/
def envUsqueUp : Env :=
  { quietEnv with
    run := fun _ c =>
      if c = "supervisorctl status usque" then .ok 0 "usque RUNNING pid 7, uptime 0:01:00" ""
      else if c = "ss -lnt sport = :1080" then .ok 0 "LISTEN 0 4096 0.0.0.0:1080 0.0.0.0:*" ""
      else .ok 0 "" "" }

/-- Stdout oracle of a world where the official client is connected and
all services run (used with exit code 0 for every command). -/
def outConnected (c : String) : String :=
  if c = "supervisorctl status warp-svc" then "warp-svc RUNNING pid 5, uptime 1:00:00"
  else if c = "supervisorctl status socat" then "socat RUNNING pid 6, uptime 1:00:00"
  else if c = "ss -lnt sport = :1080" then "LISTEN 0 4096 0.0.0.0:1080 0.0.0.0:*"
  else if c = "warp-cli --accept-tos status" then "Status update: Connected"
  else ""

/-- The Env built from outConnected. -/
def envOutConnected : Env :=
  { quietEnv with run := fun _ c => .ok 0 (outConnected c) "", readFile := fun _ _ => none }

/-- A pre-connect status record as the cache would hold it: backend up
but reported disconnected. -/
def staleRec : StatusRec :=
  { backend := "usque", status := "disconnected"
    ip := "Unknown", location := "Unknown", city := "Unknown"
    country := "Unknown", isp := "Cloudflare WARP"
    warp_protocol := "MASQUE", warp_mode := "proxy"
    connection_time := "Unknown", network_type := "Unknown"
    proxy_address := "socks5://127.0.0.1:1080"
    http_proxy_address := none, details_isp := none }

/-- A backend usque driver state whose status cache still holds the stale
pre-connect record, captured at time 0. -/
def staleUState : BackendUsque.UState :=
  { BackendUsque.mkState "/var/lib/warp/config.json" 1080 with
    status_cache := some staleRec, status_cache_time := 0 }

/-- The command emitted for one inbound TCP allow port. -/
def tcpCmd (p : Nat) : String :=
  "nft insert rule inet cloudflare-warp input tcp dport " ++ toString p
    ++ " accept comment warppool-allow-tcp-" ++ toString p

/-- The command emitted for one inbound UDP allow port. -/
def udpCmd (p : Nat) : String :=
  "nft insert rule inet cloudflare-warp input udp dport " ++ toString p
    ++ " accept comment warppool-allow-udp-" ++ toString p

/-- A controller-app official computation preserves the stored protocol
preference and operating mode (claim C1 invariant machinery). -/
def CtrlOfficial.PresMP {α : Type} (m : M CtrlOfficial.COState α) : Prop :=
  ∀ (env : Env) (k : K CtrlOfficial.COState),
    (m env k).2.st.preferred_protocol = k.st.preferred_protocol
    ∧ (m env k).2.st.mode = k.st.mode

/-- The WireGuard/TUN coupling invariant of the official controller state
(claim C1): WireGuard may only ever be the stored preference in TUN mode. -/
def CtrlOfficial.ProtocolModeInv (s : CtrlOfficial.COState) : Prop :=
  s.preferred_protocol = "wireguard" → s.mode = "tun"

-- THEOREMS: everything below this line is lemmas and claim theorems.

/-! ## Evaluation lemmas for the effect monad -/

theorem bind_eval (m : M σ α) (f : α → M σ β) (env : Env) (k : K σ) :
    (m >>= f) env k = f (m env k).1 env (m env k).2 := rfl

theorem pure_eval (a : α) (env : Env) (k : K σ) :
    (pure a : M σ α) env k = (a, k) := rfl

theorem spawn_eval (c : String) (env : Env) (k : K σ) :
    spawn c env k = (env.run k.tick c, ⟨k.st, k.tick + 1, k.trace ++ [c]⟩) := rfl

theorem sleep_eval (env : Env) (k : K σ) :
    (sleep : M σ Unit) env k = ((), ⟨k.st, k.tick + 1, k.trace⟩) := rfl

theorem modSt_eval (f : σ → σ) (env : Env) (k : K σ) :
    modSt f env k = ((), ⟨f k.st, k.tick, k.trace⟩) := rfl

theorem getSt_eval (env : Env) (k : K σ) : (getSt : M σ σ) env k = (k.st, k) := rfl

theorem event_eval (e : String) (env : Env) (k : K σ) :
    event e env k = ((), ⟨k.st, k.tick + 1, k.trace ++ [e]⟩) := rfl

theorem fileExists_eval (p : String) (env : Env) (k : K σ) :
    (fileExists p : M σ Bool) env k = (env.fileExists k.tick p, k) := rfl

theorem now_eval (env : Env) (k : K σ) : (now : M σ Int) env k = (env.timeAt k.tick, k) := rfl

/-! ## Claim theorems -/

/-- Claim C8: the command executor never raises: it is a total function of
the spawn outcome; a timeout yields exactly the sentinel tuple
(-1, "", "Timeout"), any other execution failure is reported through the
same tuple shape as (-1, "", message), and a completed process yields its
exit code and stripped streams. -/
theorem c8_run_command_total (σ : Type) (cmd : String) (env : Env) (k : K σ) :
    (env.run k.tick cmd = .timeout →
      (BaseController.run_command cmd env k).1 = (-1, "", "Timeout"))
    ∧ (∀ msg, env.run k.tick cmd = .exc msg →
      (BaseController.run_command cmd env k).1 = (-1, "", msg))
    ∧ (∀ rc out err, env.run k.tick cmd = .ok rc out err →
      (BaseController.run_command cmd env k).1 = (rc, pyTrim out, pyTrim err)) := by
  refine ⟨fun h => ?_, fun msg h => ?_, fun rc out err h => ?_⟩ <;>
    simp [BaseController.run_command, bind_eval, spawn_eval, pure_eval, h]

/-- Witness for C8 at a concrete world: a run that times out returns the
sentinel tuple. -/
theorem c8_witness :
    (BaseController.run_command "ss -lnt sport = :1080"
      { quietEnv with run := fun _ _ => .timeout }
      (⟨(), 0, []⟩ : K Unit)).1 = (-1, "", "Timeout") := by
  have h := (c8_run_command_total Unit "ss -lnt sport = :1080"
    { quietEnv with run := fun _ _ => .timeout } ⟨(), 0, []⟩).1
  exact h rfl

/-- Claim C9: the port-listening check is bare substring containment of
":port" in the socket-query output (first conjunct), so an output whose
only listener is port 10800 makes _is_port_open(1080) report true (second
conjunct, with the third conjunct recording that no token of that output
is actually bound to port 1080), with the consequence that is_connected
reports connected in such a world (fourth conjunct); on query failure the
check returns false (last conjunct). -/
theorem c9_port_substring :
    (∀ (σ : Type) (port : Nat) (hay : String) (env : Env) (k : K σ),
      env.run k.tick ("ss -lnt sport = :" ++ toString port) = .ok 0 hay "" →
      (BaseController.is_port_open port env k).1
        = strContains (pyTrim hay) (":" ++ toString port))
    ∧ (CtrlUsque.is_port_open 1080 env10800
        ⟨CtrlUsque.mkState 1080 8080 "proxy", 1, []⟩).1 = true
    ∧ (∀ w ∈ pyWords "LISTEN 0 4096 0.0.0.0:10800 0.0.0.0:*", tokenPort w ≠ some 1080)
    ∧ (CtrlUsque.is_connected env10800
        ⟨CtrlUsque.mkState 1080 8080 "proxy", 0, []⟩).1 = true
    ∧ (∀ (σ : Type) (port : Nat) (msg : String) (env : Env) (k : K σ),
      env.run k.tick ("ss -lnt sport = :" ++ toString port) = .exc msg →
      (BaseController.is_port_open port env k).1 = false) := by
  refine ⟨fun σ port hay env k h => ?_, ?_, ?_, ?_, fun σ port msg env k h => ?_⟩
  · simp [BaseController.is_port_open, BaseController.run_command,
      bind_eval, spawn_eval, pure_eval, h]
  · decide
  · decide
  · decide
  · simp [BaseController.is_port_open, BaseController.run_command,
      bind_eval, spawn_eval, pure_eval, h, strContains, segIn, segPre]

/-- Witness for C9: the substring-semantics conjunct applied in the
10800-listener world yields true for port 1080. -/
theorem c9_witness :
    (BaseController.is_port_open 1080 env10800
      (⟨(), 1, []⟩ : K Unit)).1 = true := by
  have h := c9_port_substring.1 Unit 1080 "LISTEN 0 4096 0.0.0.0:10800 0.0.0.0:*"
    env10800 ⟨(), 1, []⟩ rfl
  rw [h]
  decide

/-- Claim C10 counterexample: the string "+22" is neither a plain decimal
digit string nor of the range form a-b or a:b (second and third
conjuncts), so the claim requires the empty set for it, yet
_parse_port_spec maps it to the singleton 22 (Python int() accepts a
leading sign). -/
theorem c10_counterexample :
    TunMgr.parse_port_spec "+22" = {22}
    ∧ "+22".data.all Char.isDigit = false
    ∧ TunMgr.rangeMatch "+22" = none := by
  refine ⟨by decide, by decide, by decide⟩

/-- Claim C10 amended: _parse_port_spec never raises (it is total), strips
its input, and maps it to exactly the valid ports (1..65535) that lie in
the matched a-b or a:b range (digits around a dash or colon, optionally
whitespace-separated), or equal the value of the input as a Python
integer literal (optional sign, digits, underscores between digits) when
no range matches; every other input yields the empty set. -/
theorem c10_amended_parse_port_spec (s : String) (p : Nat) :
    p ∈ TunMgr.parse_port_spec s ↔
      1 ≤ p ∧ p ≤ 65535 ∧
        ((∃ lo hi, TunMgr.rangeMatch (pyTrim s) = some (lo, hi) ∧ lo ≤ p ∧ p ≤ hi)
          ∨ (TunMgr.rangeMatch (pyTrim s) = none
              ∧ TunMgr.pyInt (pyTrim s) = some (p : Int))) := by
  unfold TunMgr.parse_port_spec
  by_cases he : pyTrim s = ""
  · simp only [he, if_pos rfl]
    have h1 : TunMgr.rangeMatch "" = none := by decide
    have h2 : TunMgr.pyInt "" = none := by decide
    simp [h1, h2]
  · simp only [if_neg he]
    cases hr : TunMgr.rangeMatch (pyTrim s) with
    | some lohi =>
      obtain ⟨lo, hi⟩ := lohi
      simp only [hr, Finset.mem_filter, Finset.mem_Icc, Option.some.injEq]
      constructor
      · rintro ⟨⟨h1, h2⟩, h3, h4⟩
        exact ⟨h3, h4, Or.inl ⟨lo, hi, rfl, h1, h2⟩⟩
      · rintro ⟨h1, h2, ⟨lo2, hi2, heq, h3, h4⟩ | ⟨hnone, _⟩⟩
        · cases heq
          exact ⟨⟨h3, h4⟩, h1, h2⟩
        · exact absurd hnone (by simp)
    | none =>
      simp only [hr]
      cases hi : TunMgr.pyInt (pyTrim s) with
      | some v =>
        simp only [hi]
        by_cases hb : 1 ≤ v ∧ v ≤ 65535
        · simp only [if_pos hb, Finset.mem_singleton]
          constructor
          · rintro rfl
            have hv : ((v.toNat : Int)) = v := Int.toNat_of_nonneg (by omega)
            exact ⟨by omega, by omega, Or.inr ⟨trivial, by rw [hv]⟩⟩
          · rintro ⟨h1, h2, h | ⟨_, hv⟩⟩
            · obtain ⟨_, _, heq, _⟩ := h
              exact absurd heq (by simp)
            · rw [Option.some.injEq] at hv
              omega
        · simp only [if_neg hb, Finset.not_mem_empty, false_iff]
          rintro ⟨h1, h2, h | ⟨_, hv⟩⟩
          · obtain ⟨_, _, heq, _⟩ := h
            exact absurd heq (by simp)
          · rw [Option.some.injEq] at hv
            omega
      | none =>
        simp [hi]

/-! ## Trace lemmas for the tun-manager rule insertion (claim C6) -/

theorem run_command_world (c : String) (env : Env) (k : K Unit) :
    (TunMgr.run_command c env k).2 = ⟨k.st, k.tick + 1, k.trace ++ [c]⟩ := by
  simp only [TunMgr.run_command, bind_eval, spawn_eval]
  cases env.run k.tick c <;> rfl

theorem grows_run_command (c : String) (env : Env) (k : K Unit) :
    k.trace <+: (TunMgr.run_command c env k).2.trace := by
  rw [run_command_world]
  exact List.prefix_append _ _

theorem grows_tcp_rules (l : List Nat) :
    ∀ (env : Env) (k : K Unit), k.trace <+: (TunMgr.insert_tcp_rules l env k).2.trace := by
  induction l with
  | nil => intro env k; simp [TunMgr.insert_tcp_rules, pure_eval]
  | cons a t ih =>
    intro env k
    simp only [TunMgr.insert_tcp_rules, bind_eval]
    exact (grows_run_command _ env k).trans (ih env _)

theorem grows_udp_rules (l : List Nat) :
    ∀ (env : Env) (k : K Unit), k.trace <+: (TunMgr.insert_udp_rules l env k).2.trace := by
  induction l with
  | nil => intro env k; simp [TunMgr.insert_udp_rules, pure_eval]
  | cons a t ih =>
    intro env k
    simp only [TunMgr.insert_udp_rules, bind_eval]
    exact (grows_run_command _ env k).trans (ih env _)

theorem tcp_rules_emit (l : List Nat) :
    ∀ (env : Env) (k : K Unit) (p : Nat), p ∈ l →
      tcpCmd p ∈ (TunMgr.insert_tcp_rules l env k).2.trace := by
  induction l with
  | nil => intro _ _ _ h; cases h
  | cons a t ih =>
    intro env k p hp
    simp only [TunMgr.insert_tcp_rules, bind_eval]
    rcases List.mem_cons.mp hp with rfl | hmem
    · refine (grows_tcp_rules t env _).subset ?_
      rw [run_command_world]
      simp [tcpCmd]
    · exact ih env _ p hmem

theorem udp_rules_emit (l : List Nat) :
    ∀ (env : Env) (k : K Unit) (p : Nat), p ∈ l →
      udpCmd p ∈ (TunMgr.insert_udp_rules l env k).2.trace := by
  induction l with
  | nil => intro _ _ _ h; cases h
  | cons a t ih =>
    intro env k p hp
    simp only [TunMgr.insert_udp_rules, bind_eval]
    rcases List.mem_cons.mp hp with rfl | hmem
    · refine (grows_udp_rules t env _).subset ?_
      rw [run_command_world]
      simp [udpCmd]
    · exact ih env _ p hmem

theorem foldl_insert_finset (l : List Nat) :
    ∀ (s : Finset Nat), l.foldl (fun s p => insert p s) s = s ∪ l.toFinset := by
  induction l with
  | nil => intro s; simp
  | cons a t ih =>
    intro s
    simp only [List.foldl_cons, ih, List.toFinset_cons]
    ext x
    simp [or_comm, or_left_comm]

/-- merge_ports makes each protocol set the union of the snapshot set and
the required panel ports. -/
theorem merge_ports_union (snap : FirewallSnapshot) (ports : List Nat) :
    (snap.merge_ports ports).tcp_ports = snap.tcp_ports ∪ ports.toFinset
    ∧ (snap.merge_ports ports).udp_ports = snap.udp_ports ∪ ports.toFinset := by
  constructor <;> simp [FirewallSnapshot.merge_ports, foldl_insert_finset]

theorem table_wait_ready (env : Env) (tbl : String)
    (hT : ∀ t, env.run t "nft list table inet cloudflare-warp" = .ok 0 tbl "")
    (k : K Unit) (n : Nat) (hn : 0 < n) :
    TunMgr.table_wait n env k
      = (true, ⟨k.st, k.tick + 1, k.trace ++ ["nft list table inet cloudflare-warp"]⟩) := by
  cases n with
  | zero => omega
  | succ m =>
    simp [TunMgr.table_wait, bind_eval, TunMgr.run_command, spawn_eval, hT, pure_eval]

/-- Claim C6: with nft available and the WARP table present, the allow
rules applied from a firewall snapshot merged with the panel's required
ports cover the union of both: every TCP port of the snapshot and every
required port gets an inbound TCP accept command, and every UDP port of
the snapshot and every required port an inbound UDP accept command; in
particular a snapshot-recorded port 22 stays allowed. -/
theorem c6_firewall_union (env : Env) (k : K Unit) (iface : String)
    (ports : List Nat) (snap : FirewallSnapshot) (tbl : String)
    (hW : env.which "nft" = true)
    (hT : ∀ t, env.run t "nft list table inet cloudflare-warp" = .ok 0 tbl "") :
    (∀ p, p ∈ snap.tcp_ports ∪ ports.toFinset →
      tcpCmd p ∈ (TunMgr.apply_nftables_allow_rules iface ports (some snap) env k).2.trace)
    ∧ (∀ p, p ∈ snap.udp_ports ∪ ports.toFinset →
      udpCmd p ∈ (TunMgr.apply_nftables_allow_rules iface ports (some snap) env k).2.trace) := by
  have hmerge := merge_ports_union snap ports
  constructor
  · intro p hp
    have hmem : p ∈ (snap.merge_ports ports).tcp_ports.sort (· ≤ ·) := by
      rw [Finset.mem_sort, hmerge.1]; exact hp
    simp only [TunMgr.apply_nftables_allow_rules, bind_eval, TunMgr.whichM, hW,
      table_wait_ready env tbl hT _ 10 (by norm_num), eq_self_iff_true, not_true,
      if_false]
    exact (grows_udp_rules _ env _).subset (tcp_rules_emit _ env _ p hmem)
  · intro p hp
    have hmem : p ∈ (snap.merge_ports ports).udp_ports.sort (· ≤ ·) := by
      rw [Finset.mem_sort, hmerge.2]; exact hp
    simp only [TunMgr.apply_nftables_allow_rules, bind_eval, TunMgr.whichM, hW,
      table_wait_ready env tbl hT _ 10 (by norm_num), eq_self_iff_true, not_true,
      if_false]
    exact udp_rules_emit _ env _ p hmem

/-- Witness for C6: a snapshot that recorded TCP port 22 (SSH) keeps port
22 in the applied allow rules after merging with the panel ports. -/
theorem c6_witness :
    tcpCmd 22 ∈ (TunMgr.apply_nftables_allow_rules "eth0" [8000, 1080]
      (some ⟨{22}, ∅, [], []⟩) quietEnv ⟨(), 0, []⟩).2.trace :=
  (c6_firewall_union quietEnv ⟨(), 0, []⟩ "eth0" [8000, 1080] ⟨{22}, ∅, [], []⟩ ""
    rfl (fun _ => rfl)).1 22 (by decide)

/-! ## World lemmas for the backend official driver (claim C3) -/

theorem base_run_world (c : String) (env : Env) (k : K σ) :
    (BaseController.run_command c env k).2 = ⟨k.st, k.tick + 1, k.trace ++ [c]⟩ := by
  simp only [BaseController.run_command, bind_eval, spawn_eval]
  cases env.run k.tick c <;> rfl

theorem grows_base_run (c : String) (env : Env) (k : K σ) :
    k.trace <+: (BaseController.run_command c env k).2.trace := by
  rw [base_run_world]
  exact List.prefix_append _ _

theorem execO_world (c : String) (env : Env) (k : K BackendOfficial.OState) :
    (BackendOfficial.execute_command c env k).2 = ⟨k.st, k.tick + 1, k.trace ++ [c]⟩ := by
  simp only [BackendOfficial.execute_command, bind_eval, base_run_world]
  split <;> rfl

theorem grows_isdaemonO (env : Env) (k : K BackendOfficial.OState) :
    k.trace <+: (BackendOfficial.is_daemon_responsive env k).2.trace := by
  simp only [BackendOfficial.is_daemon_responsive, bind_eval]
  split
  · exact grows_base_run _ env k
  · exact (grows_base_run _ env k).trans (grows_base_run _ env _)

theorem grows_isconnO (env : Env) (k : K BackendOfficial.OState) :
    k.trace <+: (BackendOfficial.is_connected env k).2.trace := by
  simp only [BackendOfficial.is_connected, BackendOfficial.check_daemon_running, bind_eval]
  split
  · exact grows_isdaemonO env k
  · refine (grows_isdaemonO env k).trans ?_
    simp only [bind_eval]
    split
    · exact grows_base_run _ env _
    · exact grows_base_run _ env _

theorem grows_wait (is_conn : M σ Bool) (inval : σ → σ) (target : String)
    (hg : ∀ env k, k.trace <+: (is_conn env k).2.trace) :
    ∀ (fuel : Nat) (env : Env) (k : K σ),
      k.trace <+: (BaseController.wait_for_status is_conn inval target fuel env k).2.trace := by
  intro fuel
  induction fuel with
  | zero => intro env k; exact List.prefix_rfl
  | succ n ih =>
    intro env k
    simp only [BaseController.wait_for_status, bind_eval]
    split
    · exact hg env k
    · exact (hg env k).trans
        (ih env ⟨(is_conn env k).2.st, (is_conn env k).2.tick + 1, (is_conn env k).2.trace⟩)

theorem stopO_world (env : Env) (k : K BackendOfficial.OState) :
    (BackendOfficial.stop_services env k).2
      = ⟨k.st, k.tick + 1 + 1,
          k.trace ++ ["supervisorctl stop socat", "supervisorctl stop warp-svc"]⟩ := by
  simp only [BackendOfficial.stop_services, bind_eval, base_run_world, pure_eval,
    List.append_assoc, List.singleton_append]

/-! ## World lemmas for the controller-app usque driver (claim C3) -/

theorem runRawU_world (c : String) (env : Env) (k : K σ) :
    (CtrlUsque.runRaw c env k).2 = ⟨k.st, k.tick + 1, k.trace ++ [c]⟩ := by
  simp only [CtrlUsque.runRaw, bind_eval, spawn_eval]
  cases env.run k.tick c <;> rfl

theorem runRawU_ok (c : String) (env : Env) (k : K σ) (rc : Int) (out err : String)
    (h : env.run k.tick c = .ok rc out err) :
    CtrlUsque.runRaw c env k = (some (rc, out, err), ⟨k.st, k.tick + 1, k.trace ++ [c]⟩) := by
  simp [CtrlUsque.runRaw, bind_eval, spawn_eval, h, pure_eval]

/-- With no lookup-100 line present, the cleanup rule loop deletes nothing
and succeeds without touching the world. -/
theorem cleanup_loop_clean (lines : List String)
    (hc : ∀ l ∈ lines, strContains l "lookup 100" = false) :
    ∀ (env : Env) (k : K CtrlUsque.CUState),
      CtrlUsque.cleanup_rules_loop lines env k = (true, k) := by
  induction lines with
  | nil => intro env k; rfl
  | cons a t ih =>
    intro env k
    have ha := hc a (List.mem_cons_self a t)
    simp only [CtrlUsque.cleanup_rules_loop, ha, Bool.false_eq_true, if_false]
    exact ih (fun l hl => hc l (List.mem_cons_of_mem a hl)) env k

/-- Claim C3: disconnect is an idempotent, never-stuck cleanup.
First conjunct: the backend official driver's disconnect always returns
true — also when the graceful warp-cli disconnect fails — and its trace is
exactly the client disconnect, the disconnected-wait probes, and the
unconditional service teardown (stop socat, stop warp-svc); it issues no
routing command at all.  Second conjunct: the controller-app usque
disconnect, called when already disconnected with no bypass rule present
and no endpoint configured (and no stop command raising), returns true and
issues exactly the four service stops, the rule listing and the idempotent
table flush — in particular no `ip rule del` and no `ip route del`
destructive routing command. -/
theorem c3_disconnect_idempotent (env : Env) (k : K BackendOfficial.OState)
    (envU : Env) (kU : K CtrlUsque.CUState) (ruleOut : String)
    (rcF : Nat → String → Int) (outF errF : Nat → String → String)
    (hRun : ∀ t c, envU.run t c = .ok (rcF t c) (outF t c) (errF t c))
    (hRuleOut : ∀ t, outF t "ip rule show" = ruleOut)
    (hClean : ∀ l ∈ pySplitOn (pyTrim ruleOut) "\n", strContains l "lookup 100" = false)
    (hEp : ∀ t, envU.cfgEndpoint t = none)
    (hDisc : (CtrlUsque.is_connected envU kU).1 = false) :
    ((BackendOfficial.disconnect env k).1 = true
      ∧ ∃ tr, (BackendOfficial.disconnect env k).2.trace
          = k.trace ++ ["warp-cli --accept-tos disconnect"] ++ tr
            ++ ["supervisorctl stop socat", "supervisorctl stop warp-svc"])
    ∧ ((CtrlUsque.disconnect envU kU).1 = true
      ∧ (CtrlUsque.disconnect envU kU).2.trace
          = kU.trace ++ ["supervisorctl stop tun-proxy", "supervisorctl stop http-proxy",
              "supervisorctl stop usque-tun", "supervisorctl stop usque",
              "ip rule show", "ip route flush table 100 2>/dev/null"]
      ∧ ∀ c ∈ ["supervisorctl stop tun-proxy", "supervisorctl stop http-proxy",
              "supervisorctl stop usque-tun", "supervisorctl stop usque",
              "ip rule show", "ip route flush table 100 2>/dev/null"],
          segPre "ip rule del".data c.data = false
          ∧ segPre "ip route del".data c.data = false) := by
  constructor
  · constructor
    · rfl
    · simp only [BackendOfficial.disconnect, bind_eval, modSt_eval, execO_world]
      obtain ⟨tr0, htr0⟩ := grows_wait BackendOfficial.is_connected BackendOfficial.inval
        "disconnected" grows_isconnO 5 env
        ⟨BackendOfficial.inval k.st, k.tick + 1, k.trace ++ ["warp-cli --accept-tos disconnect"]⟩
      refine ⟨tr0, ?_⟩
      simp only [BackendOfficial.wait_for_status] at htr0 ⊢
      rw [stopO_world]
      simp only [pure_eval, ← htr0, List.append_assoc]
  · refine ⟨?_, ?_, by decide⟩
    · simp only [CtrlUsque.disconnect, CtrlUsque.cleanup_tun_routing, CtrlUsque.runRaw,
        bind_eval, spawn_eval, hRun, pure_eval, modSt_eval, endpointLookup, hEp, hRuleOut,
        cleanup_loop_clean _ hClean]
    · simp only [CtrlUsque.disconnect, CtrlUsque.cleanup_tun_routing, CtrlUsque.runRaw,
        bind_eval, spawn_eval, hRun, pure_eval, modSt_eval, endpointLookup, hEp, hRuleOut,
        cleanup_loop_clean _ hClean]
      simp [bind_eval, spawn_eval, hRun, pure_eval, endpointLookup, hEp,
        List.append_assoc]

/-- Witness for C3: in a quiet world (all commands succeed with empty
output, nothing running, no rules, no endpoint) both disconnects report
success. -/
theorem c3_witness :
    (BackendOfficial.disconnect quietEnv ⟨BackendOfficial.mkState 1080, 0, []⟩).1 = true
    ∧ (CtrlUsque.disconnect quietEnv ⟨CtrlUsque.mkState 1080 8080 "proxy", 0, []⟩).1 = true := by
  have h := c3_disconnect_idempotent quietEnv ⟨BackendOfficial.mkState 1080, 0, []⟩
    quietEnv ⟨CtrlUsque.mkState 1080 8080 "proxy", 0, []⟩ ""
    (fun _ _ => 0) (fun _ _ => "") (fun _ _ => "")
    (fun _ _ => rfl) (fun _ => rfl) (by decide) (fun _ => rfl) (by decide)
  exact ⟨h.1.1, h.2.1⟩

/-! ## Lemmas for connect idempotence (claim C2) -/

/-- The connectivity probe of the backend usque driver only issues the two
read-only status queries. -/
theorem is_connU_trace (env : Env) (k : K BackendUsque.UState) :
    ∀ c ∈ (BackendUsque.is_connected env k).2.trace,
      c ∈ k.trace ∨ c = "supervisorctl status usque"
        ∨ c = "ss -lnt sport = :" ++ toString k.st.socks5_port := by
  intro c hc
  simp only [BackendUsque.is_connected, BackendUsque.is_proxy_connected, bind_eval] at hc
  by_cases hcond : ((BaseController.run_command "supervisorctl status usque" env k).1.1 ≠ 0
      ∨ ¬ strContains (BaseController.run_command "supervisorctl status usque" env k).1.2.1
          "RUNNING" = true)
  · rw [if_pos hcond] at hc
    simp only [pure_eval, base_run_world, List.mem_append, List.mem_singleton] at hc
    tauto
  · rw [if_neg hcond] at hc
    simp only [bind_eval, getSt_eval, BackendUsque.is_port_open, BaseController.is_port_open,
      base_run_world, pure_eval, List.mem_append, List.mem_singleton] at hc
    tauto

/-- An existing config file makes initialize a pure success. -/
theorem initU_exists (env : Env) (k : K BackendUsque.UState)
    (h : env.fileExists k.tick k.st.config_path = true) :
    BackendUsque.init env k = (true, k) := by
  simp [BackendUsque.init, bind_eval, getSt_eval, fileExists_eval, h, pure_eval]

/-- Claim C2 counterexample: in a world where the official backend driver
is already connected (daemon responsive, status Connected, socat up,
registration present), connect() does not short-circuit: it issues the
warp-cli disconnect and connect client commands again, contradicting the
claim that no client connect command is issued when already connected. -/
theorem c2_counterexample :
    (BackendOfficial.is_connected envOffConnected
      ⟨BackendOfficial.mkState 1080, 0, []⟩).1 = true
    ∧ "warp-cli --accept-tos connect" ∈ (BackendOfficial.connect envOffConnected
        ⟨BackendOfficial.mkState 1080, 0, []⟩).2.trace
    ∧ "warp-cli --accept-tos disconnect" ∈ (BackendOfficial.connect envOffConnected
        ⟨BackendOfficial.mkState 1080, 0, []⟩).2.trace := by
  refine ⟨by decide, by decide, by decide⟩

/-- Claim C2 amended: the usque driver short-circuits — when the
registration config exists and the driver is already connected, connect()
returns true with the world advanced only by the two read-only
connectivity probes (no service start/stop, no registration, no client
connect).  The official driver does not short-circuit: even in a world
where it is already connected (second half, with the world described by
oracles), its connect() runs the full reconfiguration, issuing the client
disconnect and connect commands again (the exact command trace is
given). -/
theorem c2_amended_connect_idempotence
    (envU : Env) (kU : K BackendUsque.UState)
    (hCfg : envU.fileExists kU.tick kU.st.config_path = true)
    (hConnU : (BackendUsque.is_connected envU kU).1 = true)
    (envO : Env) (kO : K BackendOfficial.OState) (outF : Nat → String → String)
    (hRunO : ∀ t c, envO.run t c = .ok 0 (outF t c) "")
    (hFileO : ∀ t p, envO.fileExists t p = true)
    (hReadO : ∀ t p, envO.readFile t p = none)
    (hSvc : ∀ t, strContains (pyTrim (outF t "supervisorctl status warp-svc")) "RUNNING" = true)
    (hSocat : ∀ t, strContains (pyTrim (outF t "supervisorctl status socat")) "RUNNING" = true)
    (hSs : ∀ t, strContains (pyTrim (outF t ("ss -lnt sport = :" ++ toString kO.st.socks5_port)))
        (":" ++ toString kO.st.socks5_port) = true)
    (hSt1 : ∀ t, strContains (pyLower (pyTrim (outF t "warp-cli --accept-tos status")))
        "connected" = true)
    (hSt2 : ∀ t, strContains (pyLower (pyTrim (outF t "warp-cli --accept-tos status")))
        "disconnected" = false) :
    ((BackendUsque.connect envU kU).1 = true
      ∧ (BackendUsque.connect envU kU).2 = (BackendUsque.is_connected envU kU).2
      ∧ ∀ c ∈ (BackendUsque.connect envU kU).2.trace,
          c ∈ kU.trace ∨ c = "supervisorctl status usque"
            ∨ c = "ss -lnt sport = :" ++ toString kU.st.socks5_port)
    ∧ ((BackendOfficial.is_connected envO kO).1 = true
      ∧ (BackendOfficial.connect envO kO).1 = true
      ∧ (BackendOfficial.connect envO kO).2.trace = kO.trace
          ++ ["supervisorctl status warp-svc", "warp-cli --accept-tos status",
              "supervisorctl status socat",
              "ss -lnt sport = :" ++ toString kO.st.socks5_port,
              "warp-cli --accept-tos disconnect", "warp-cli --accept-tos mode proxy",
              "warp-cli --accept-tos proxy port 40001",
              "warp-cli --accept-tos tunnel protocol set MASQUE",
              "warp-cli --accept-tos connect",
              "supervisorctl status warp-svc", "warp-cli --accept-tos status",
              "warp-cli --accept-tos status"]) := by
  have hinit := initU_exists envU kU hCfg
  have hworld : (BackendUsque.connect envU kU).2 = (BackendUsque.is_connected envU kU).2 := by
    simp [BackendUsque.connect, bind_eval, hinit, pure_eval, hConnU]
  refine ⟨⟨?_, hworld, ?_⟩, ?_, ?_, ?_⟩
  · simp [BackendUsque.connect, bind_eval, hinit, pure_eval, hConnU]
  · rw [hworld]
    exact is_connU_trace envU kU
  · simp [BackendOfficial.is_connected, BackendOfficial.check_daemon_running,
      BackendOfficial.is_daemon_responsive, bind_eval, pure_eval,
      BaseController.run_command, spawn_eval, hRunO, hSvc, hSt1, hSt2]
  · simp [BackendOfficial.connect, BackendOfficial.connect_proxy, bind_eval, pure_eval,
      BackendOfficial.is_daemon_responsive, BackendOfficial.ensure_socat,
      BackendOfficial.update_supervisor_socat_port,
      BackendOfficial.update_supervisor_socat_port.for_conf,
      BackendOfficial.execute_command, BackendOfficial.is_connected,
      BackendOfficial.check_daemon_running, BackendOfficial.wait_for_status,
      BaseController.wait_for_status, BaseController.is_port_open,
      BaseController.run_command, bind_eval, spawn_eval, pure_eval, modSt_eval,
      getSt_eval, fileExists_eval, sleep_eval, readFileM,
      hRunO, hFileO, hReadO, hSvc, hSocat, hSs, hSt1, hSt2]
  · simp [BackendOfficial.connect, BackendOfficial.connect_proxy, bind_eval, pure_eval,
      BackendOfficial.is_daemon_responsive, BackendOfficial.ensure_socat,
      BackendOfficial.update_supervisor_socat_port,
      BackendOfficial.update_supervisor_socat_port.for_conf,
      BackendOfficial.execute_command, BackendOfficial.is_connected,
      BackendOfficial.check_daemon_running, BackendOfficial.wait_for_status,
      BaseController.wait_for_status, BaseController.is_port_open,
      BaseController.run_command, bind_eval, spawn_eval, pure_eval, modSt_eval,
      getSt_eval, fileExists_eval, sleep_eval, readFileM,
      hRunO, hFileO, hReadO, hSvc, hSocat, hSs, hSt1, hSt2]

/-- Witness for C2 (amended): both halves applied in concrete connected
worlds. -/
theorem c2_witness :
    (BackendUsque.connect envUsqueUp
      ⟨BackendUsque.mkState "/var/lib/warp/config.json" 1080, 0, []⟩).1 = true
    ∧ (BackendOfficial.connect envOutConnected
      ⟨BackendOfficial.mkState 1080, 0, []⟩).1 = true := by
  have h1 : strContains (pyTrim (outConnected "supervisorctl status warp-svc"))
      "RUNNING" = true := by decide
  have h2 : strContains (pyTrim (outConnected "supervisorctl status socat"))
      "RUNNING" = true := by decide
  have h3 : strContains (pyTrim (outConnected "ss -lnt sport = :1080")) ":1080" = true := by
    decide
  have h4 : strContains (pyLower (pyTrim (outConnected "warp-cli --accept-tos status")))
      "connected" = true := by decide
  have h5 : strContains (pyLower (pyTrim (outConnected "warp-cli --accept-tos status")))
      "disconnected" = false := by decide
  have h := c2_amended_connect_idempotence envUsqueUp
    ⟨BackendUsque.mkState "/var/lib/warp/config.json" 1080, 0, []⟩ rfl (by decide)
    envOutConnected ⟨BackendOfficial.mkState 1080, 0, []⟩ (fun _ c => outConnected c)
    (fun _ _ => rfl) (fun _ _ => rfl) (fun _ _ => rfl)
    (fun _ => h1) (fun _ => h2) (fun _ => h3) (fun _ => h4) (fun _ => h5)
  exact ⟨h.1.1, h.2.2.1⟩

/-! ## State-preservation lemmas for the status cache (claim C7) -/

theorem st_base_run (c : String) (env : Env) (k : K σ) :
    (BaseController.run_command c env k).2.st = k.st := by
  rw [base_run_world]

theorem st_isportopen (port : Nat) (env : Env) (k : K σ) :
    (BaseController.is_port_open port env k).2.st = k.st := by
  simp only [BaseController.is_port_open, bind_eval, pure_eval]
  exact st_base_run _ env k

theorem st_isproxyU (env : Env) (k : K BackendUsque.UState) :
    (BackendUsque.is_proxy_connected env k).2.st = k.st := by
  simp only [BackendUsque.is_proxy_connected, bind_eval]
  split
  · simp only [pure_eval]
    exact st_base_run _ env k
  · simp only [bind_eval, getSt_eval, BackendUsque.is_port_open]
    rw [st_isportopen]
    exact st_base_run _ env k

theorem st_proxy_wait (fuel : Nat) :
    ∀ (env : Env) (k : K BackendUsque.UState),
      (BackendUsque.proxy_wait fuel env k).2.st = k.st := by
  induction fuel with
  | zero => intro env k; rfl
  | succ n ih =>
    intro env k
    simp only [BackendUsque.proxy_wait, bind_eval]
    split
    · simp only [pure_eval]
      exact st_isproxyU env k
    · simp only [bind_eval, sleep_eval]
      rw [ih]
      exact st_isproxyU env k

theorem st_forconfU (cp nc : String) (env : Env) (k : K BackendUsque.UState) :
    (BackendUsque.update_supervisor_usque_port.for_conf cp nc env k).2.st = k.st := by
  simp only [BackendUsque.update_supervisor_usque_port.for_conf, bind_eval,
    fileExists_eval, readFileM, event_eval, pure_eval]
  split
  · rfl
  · simp only [bind_eval]
    cases hr : ((readFileM cp : M BackendUsque.UState (Option String)) env k).1 with
    | none =>
      simp only [hr]
      rfl
    | some content =>
      simp only [hr]
      split
      · simp only [bind_eval, event_eval, pure_eval]
        rw [st_base_run, st_base_run]
        rfl
      · rfl

theorem st_updU (env : Env) (k : K BackendUsque.UState) :
    (BackendUsque.update_supervisor_usque_port env k).2.st = k.st := by
  simp only [BackendUsque.update_supervisor_usque_port, bind_eval, getSt_eval]
  rw [st_forconfU, st_forconfU]

theorem st_connectU (env : Env) (k : K BackendUsque.UState) :
    (BackendUsque.connect_proxy env k).2.st = k.st := by
  simp only [BackendUsque.connect_proxy, bind_eval, sleep_eval]
  split
  · simp only [pure_eval]
    rw [st_base_run]
    dsimp only
    rw [st_base_run, st_updU]
  · rw [st_proxy_wait, st_base_run]
    dsimp only
    rw [st_base_run, st_updU]

theorem st_isdaemonO (env : Env) (k : K BackendOfficial.OState) :
    (BackendOfficial.is_daemon_responsive env k).2.st = k.st := by
  simp only [BackendOfficial.is_daemon_responsive, bind_eval]
  split
  · simp only [pure_eval]
    exact st_base_run _ env k
  · simp only [bind_eval, pure_eval]
    rw [st_base_run, st_base_run]

theorem st_isconnO (env : Env) (k : K BackendOfficial.OState) :
    (BackendOfficial.is_connected env k).2.st = k.st := by
  simp only [BackendOfficial.is_connected, BackendOfficial.check_daemon_running, bind_eval]
  split
  · simp only [pure_eval]
    exact st_isdaemonO env k
  · simp only [bind_eval]
    split
    · simp only [pure_eval]
      rw [st_base_run, st_isdaemonO]
    · simp only [pure_eval]
      rw [st_base_run, st_isdaemonO]

/-- A cache already invalidated stays invalidated through the
disconnected/connected wait (the wait only ever invalidates further). -/
theorem waitO_cache_none (target : String) (fuel : Nat) :
    ∀ (env : Env) (k : K BackendOfficial.OState),
      k.st.status_cache = none →
      (BackendOfficial.wait_for_status target fuel env k).2.st.status_cache = none := by
  induction fuel with
  | zero => intro env k h; exact h
  | succ n ih =>
    intro env k h
    simp only [BackendOfficial.wait_for_status, BaseController.wait_for_status, bind_eval]
    split
    · simp only [bind_eval, modSt_eval, pure_eval]
      rfl
    · simp only [bind_eval, sleep_eval]
      refine ih env _ ?_
      show (BackendOfficial.is_connected env k).2.st.status_cache = none
      rw [st_isconnO]
      exact h

/-- Claim C7 counterexample: a successful usque connect leaves the stale
pre-connect cache record in place, so a status read within the 2s TTL
right after connecting still reports disconnected although the driver is
connected. -/
theorem c7_counterexample :
    (BackendUsque.connect_proxy envUsqueUp ⟨staleUState, 0, []⟩).1 = true
    ∧ (BackendUsque.connect_proxy envUsqueUp
        ⟨staleUState, 0, []⟩).2.st.status_cache = some staleRec
    ∧ (BackendUsque.get_status envUsqueUp
        (BackendUsque.connect_proxy envUsqueUp ⟨staleUState, 0, []⟩).2).1 = staleRec
    ∧ staleRec.status = "disconnected"
    ∧ (BackendUsque.is_connected envUsqueUp
        (BackendUsque.connect_proxy envUsqueUp ⟨staleUState, 0, []⟩).2).1 = true := by
  refine ⟨by decide, by decide, by decide, by decide, by decide⟩

/-- Claim C7 amended: get_status serves the cached record exactly while
its age is strictly below the TTL (2s backend, 8s controller-app) and
otherwise recomputes and stores the fresh record; disconnect invalidates
the cache on both backend drivers; but the usque connect path
(_connect_proxy) leaves the driver state — including the status cache —
completely untouched, so a connect does not invalidate and the next read
within the TTL can serve the stale pre-connect record. -/
theorem c7_amended_status_cache :
    (∀ (env : Env) (k : K BackendUsque.UState) (c : StatusRec),
      k.st.status_cache = some c →
      env.timeAt k.tick - k.st.status_cache_time < 2 →
      BackendUsque.get_status env k = (c, k))
    ∧ (∀ (env : Env) (k : K BackendUsque.UState),
      (k.st.status_cache = none ∨ ¬ env.timeAt k.tick - k.st.status_cache_time < 2) →
      (BackendUsque.get_status env k).1 = (BackendUsque.get_status_uncached env k).1
      ∧ (BackendUsque.get_status env k).2.st.status_cache
          = some (BackendUsque.get_status_uncached env k).1
      ∧ (BackendUsque.get_status env k).2.st.status_cache_time = env.timeAt k.tick)
    ∧ (∀ (env : Env) (k : K CtrlUsque.CUState) (c : StatusRec),
      k.st.status_cache = some c →
      env.timeAt k.tick - k.st.status_cache_time < 8 →
      CtrlUsque.get_status env k = (c, k))
    ∧ (∀ (env : Env) (k : K BackendUsque.UState),
      (BackendUsque.disconnect env k).2.st.status_cache = none)
    ∧ (∀ (env : Env) (k : K BackendOfficial.OState),
      (BackendOfficial.disconnect env k).2.st.status_cache = none)
    ∧ (∀ (env : Env) (k : K BackendUsque.UState),
      (BackendUsque.connect_proxy env k).2.st = k.st) := by
  refine ⟨?_, ?_, ?_, ?_, ?_, ?_⟩
  · intro env k c hc hf
    simp [BackendUsque.get_status, BaseController.get_status, bind_eval, now_eval,
      getSt_eval, hc, hf, pure_eval]
  · intro env k h
    rcases h with h | h
    · simp [BackendUsque.get_status, BaseController.get_status, bind_eval, now_eval,
        getSt_eval, h, pure_eval, modSt_eval]
    · cases hc : k.st.status_cache with
      | none =>
        simp [BackendUsque.get_status, BaseController.get_status, bind_eval, now_eval,
          getSt_eval, hc, pure_eval, modSt_eval]
      | some c =>
        simp [BackendUsque.get_status, BaseController.get_status, bind_eval, now_eval,
          getSt_eval, hc, h, pure_eval, modSt_eval]
  · intro env k c hc hf
    simp [CtrlUsque.get_status, bind_eval, now_eval, getSt_eval, hc, hf, pure_eval]
  · intro env k
    rfl
  · intro env k
    have hstop : ∀ (X : K BackendOfficial.OState),
        (BackendOfficial.stop_services env X).2.st.status_cache = X.st.status_cache := by
      intro X
      rw [stopO_world]
    simp only [BackendOfficial.disconnect, bind_eval, modSt_eval, execO_world, pure_eval]
    rw [hstop]
    exact waitO_cache_none "disconnected" 5 env _ rfl
  · exact fun env k => st_connectU env k

/-- Witness for C7 (amended): a cached record younger than the TTL is
served unchanged, with no recomputation and no world change. -/
theorem c7_witness :
    BackendUsque.get_status quietEnv ⟨staleUState, 0, []⟩
      = (staleRec, ⟨staleUState, 0, []⟩) :=
  c7_amended_status_cache.1 quietEnv ⟨staleUState, 0, []⟩ staleRec rfl (by decide)

/-! ## Lemmas for the backend factory (claim C4) -/

theorem st_runDrv (mu : M BackendUsque.UState α) (mo : M BackendOfficial.OState α)
    (d : Factory.Drv) (env : Env) (k : K Factory.FState) :
    (Factory.runDrv mu mo d env k).2.st = k.st := by
  cases d <;> rfl

theorem discU_world (env : Env) (k : K BackendUsque.UState) :
    (BackendUsque.disconnect env k).2
      = ⟨BackendUsque.inval { k.st with processSome := false }, k.tick + 1,
          k.trace ++ ["supervisorctl stop usque"]⟩ := by
  simp only [BackendUsque.disconnect, bind_eval, modSt_eval, pure_eval, base_run_world]

theorem grows_discO (env : Env) (k : K BackendOfficial.OState) :
    k.trace <+: (BackendOfficial.disconnect env k).2.trace := by
  simp only [BackendOfficial.disconnect, bind_eval, modSt_eval, execO_world, pure_eval]
  have h := grows_wait BackendOfficial.is_connected BackendOfficial.inval
    "disconnected" grows_isconnO 5 env
    ⟨BackendOfficial.inval k.st, k.tick + 1, k.trace ++ ["warp-cli --accept-tos disconnect"]⟩
  rw [stopO_world]
  refine List.IsPrefix.trans ?_ (h.trans (List.prefix_append _ _))
  exact (List.prefix_append _ _).trans (List.prefix_refl _)

theorem grows_runDrv_disc (d : Factory.Drv) (env : Env) (k : K Factory.FState) :
    k.trace <+: (Factory.runDrv BackendUsque.disconnect BackendOfficial.disconnect
      d env k).2.trace := by
  cases d with
  | usque s =>
    show k.trace <+: (BackendUsque.disconnect env ⟨s, k.tick, k.trace⟩).2.trace
    rw [discU_world]
    exact List.prefix_append _ _
  | official s =>
    exact grows_discO env ⟨s, k.tick, k.trace⟩

theorem port_wait_trace (port : Nat) (fuel : Nat) :
    ∀ (env : Env) (k : K Factory.FState), ∃ n, n ≤ fuel
      ∧ (Factory.port_wait port fuel env k).2.st = k.st
      ∧ (Factory.port_wait port fuel env k).2.trace
          = k.trace ++ List.replicate n ("[poll] " ++ toString port) := by
  induction fuel with
  | zero =>
    intro env k
    exact ⟨0, by omega, rfl, by simp [Factory.port_wait, pure_eval]⟩
  | succ m ih =>
    intro env k
    simp only [Factory.port_wait, bind_eval, Factory.pollPort]
    split
    · obtain ⟨n, hn, hst, htr⟩ := ih env
        ⟨k.st, k.tick + 1 + 1, k.trace ++ ["[poll] " ++ toString port]⟩
      refine ⟨n + 1, by omega, hst, ?_⟩
      exact htr.trans (by simp [List.replicate_succ, List.append_assoc])
    · exact ⟨1, by omega, rfl, by simp [pure_eval, List.replicate_succ]⟩

theorem kill_trace (port : Nat) (l : List NetConn) :
    ∀ (env : Env) (k : K Factory.FState),
      (Factory.kill_leftovers port l env k).2.st = k.st
      ∧ (Factory.kill_leftovers port l env k).2.trace
          = k.trace ++ (l.filter (fun c => decide (c.port = port ∧ c.status = "LISTEN"))).map
              (fun c => "[kill] " ++ toString c.pid) := by
  induction l with
  | nil =>
    intro env k
    exact ⟨rfl, by simp [Factory.kill_leftovers, pure_eval]⟩
  | cons a t ih =>
    intro env k
    simp only [Factory.kill_leftovers, bind_eval]
    by_cases ha : a.port = port ∧ a.status = "LISTEN"
    · rw [if_pos ha]
      obtain ⟨hst, htr⟩ := ih env
        ⟨k.st, k.tick + 1, k.trace ++ ["[kill] " ++ toString a.pid]⟩
      refine ⟨hst, ?_⟩
      refine htr.trans ?_
      simp [List.filter_cons, ha.1, ha.2, List.append_assoc]
    · rw [if_neg ha]
      obtain ⟨hst, htr⟩ := ih env k
      refine ⟨hst, ?_⟩
      refine htr.trans ?_
      simp [List.filter_cons, ha]

/-- port_wait leaves the factory state untouched. -/
theorem port_wait_st (port : Nat) (fuel : Nat) :
    ∀ (env : Env) (k : K Factory.FState),
      (Factory.port_wait port fuel env k).2.st = k.st := by
  intro env k
  obtain ⟨n, _, hst, _⟩ := port_wait_trace port fuel env k
  exact hst

/-- reclaim_port leaves the factory state untouched. -/
theorem reclaim_st (port : Nat) (env : Env) (k : K Factory.FState) :
    (Factory.reclaim_port port env k).2.st = k.st := by
  simp only [Factory.reclaim_port, bind_eval, Factory.psutilAvail]
  split
  · simp only [bind_eval, Factory.netConnsM]
    rw [(kill_trace port env.netConns env _).1, port_wait_st]
  · simp only [pure_eval]
    rw [port_wait_st]

/-- reclaim_port appends at most 10 poll events and then exactly the kill
events of the LISTEN holders of the port (none without psutil). -/
theorem reclaim_trace (port : Nat) (env : Env) (k : K Factory.FState) :
    ∃ n, n ≤ 10 ∧ (Factory.reclaim_port port env k).2.trace
      = k.trace ++ List.replicate n ("[poll] " ++ toString port)
        ++ (if env.psutilOk
            then (env.netConns.filter
                (fun c => decide (c.port = port ∧ c.status = "LISTEN"))).map
                (fun c => "[kill] " ++ toString c.pid)
            else []) := by
  obtain ⟨n, hn, hst, htr⟩ := port_wait_trace port 10 env k
  refine ⟨n, hn, ?_⟩
  simp only [Factory.reclaim_port, bind_eval, Factory.psutilAvail]
  split
  · simp only [bind_eval, Factory.netConnsM]
    rw [(kill_trace port env.netConns env _).2, htr]
  · simp only [pure_eval, htr, List.append_nil]

/-- get_instance on a reset factory state with a valid configured backend
builds exactly the fresh driver for that backend, without touching the
trace. -/
theorem get_instance_fresh (env : Env) (k : K Factory.FState) (new : String) (port : Nat)
    (hv : new = "usque" ∨ new = "official")
    (hinst : k.st.inst = none) (hb : k.st.envBackend = some new)
    (hp : k.st.socks5_port = port) :
    (Factory.get_instance none env k).1 = Except.ok (Factory.freshDrv new port)
    ∧ (Factory.get_instance none env k).2.st.current = some new
    ∧ (Factory.get_instance none env k).2.st.inst = some (Factory.freshDrv new port)
    ∧ (Factory.get_instance none env k).2.trace = k.trace := by
  have hu : pyLower "usque" = "usque" := by decide
  have ho : pyLower "official" = "official" := by decide
  rcases hv with rfl | rfl
  · simp [Factory.get_instance, bind_eval, getSt_eval, modSt_eval, pure_eval, hinst, hb,
      hu, hp, Factory.freshDrv]
  · simp [Factory.get_instance, bind_eval, getSt_eval, modSt_eval, pure_eval, hinst, hb,
      ho, hp, Factory.freshDrv]

/-- The reset-and-rebuild tail of do_switch, for an arbitrary incoming
world. -/
theorem reset_build_spec (new : String) (hv : new = "usque" ∨ new = "official")
    (env : Env) (W : K Factory.FState) :
    (Factory.get_instance none env
        ⟨{ W.st with envBackend := some new, inst := none, current := none },
          W.tick, W.trace⟩).1
      = Except.ok (Factory.freshDrv new W.st.socks5_port)
    ∧ (Factory.get_instance none env
        ⟨{ W.st with envBackend := some new, inst := none, current := none },
          W.tick, W.trace⟩).2.st.current = some new
    ∧ (Factory.get_instance none env
        ⟨{ W.st with envBackend := some new, inst := none, current := none },
          W.tick, W.trace⟩).2.st.inst = some (Factory.freshDrv new W.st.socks5_port)
    ∧ (Factory.get_instance none env
        ⟨{ W.st with envBackend := some new, inst := none, current := none },
          W.tick, W.trace⟩).2.trace = W.trace :=
  get_instance_fresh env
    ⟨{ W.st with envBackend := some new, inst := none, current := none }, W.tick, W.trace⟩
    new W.st.socks5_port hv rfl rfl rfl

/-- The teardown-and-rebuild path of switch_backend: result, final state
and trace decomposition (disconnect of the held driver, then at most 10
port polls, then exactly the kills of the LISTEN holders of the port,
then the pure construction). -/
theorem do_switch_spec (env : Env) (k : K Factory.FState) (d : Factory.Drv) (new : String)
    (hv : new = "usque" ∨ new = "official") (hinst : k.st.inst = some d) :
    (Factory.do_switch new env k).1 = Except.ok (Factory.freshDrv new k.st.socks5_port)
    ∧ (Factory.do_switch new env k).2.st.current = some new
    ∧ (Factory.do_switch new env k).2.st.inst
        = some (Factory.freshDrv new k.st.socks5_port)
    ∧ ∃ n, n ≤ 10 ∧ (Factory.do_switch new env k).2.trace
        = (Factory.runDrv BackendUsque.disconnect BackendOfficial.disconnect d env k).2.trace
          ++ List.replicate n ("[poll] " ++ toString k.st.socks5_port)
          ++ (if env.psutilOk
              then (env.netConns.filter
                  (fun c => decide (c.port = k.st.socks5_port ∧ c.status = "LISTEN"))).map
                  (fun c => "[kill] " ++ toString c.pid)
              else []) := by
  simp only [Factory.do_switch, bind_eval, getSt_eval, hinst, modSt_eval, st_runDrv]
  set KD := Factory.runDrv BackendUsque.disconnect BackendOfficial.disconnect d env k
    with hKD
  set W1 : K Factory.FState :=
    ⟨{ k.st with inst := some KD.1.2 }, KD.2.tick, KD.2.trace⟩ with hW1
  set RP := (Factory.reclaim_port k.st.socks5_port env W1).2 with hRP
  have hps : RP.st.socks5_port = k.st.socks5_port := by
    rw [hRP, reclaim_st]
  have h := reset_build_spec new hv env RP
  rw [hps] at h
  obtain ⟨n, hn, htr⟩ := reclaim_trace k.st.socks5_port env W1
  refine ⟨h.1, h.2.1, h.2.2.1, n, hn, ?_⟩
  rw [h.2.2.2, hRP, htr]

/-- Claim C4: switch_backend with the currently active name returns the
held driver instance with the world unchanged (first conjunct); with a
different valid name it disconnects the held driver, polls at most 10
times for the SOCKS5 port, force-kills exactly the processes still
LISTENing on that port, and only then constructs and returns the fresh
driver for the new name, after which get_current_backend equals the new
name (second conjunct, including the dropped-trace decomposition in that
order). -/
theorem c4_switch_backend :
    (∀ (env : Env) (k : K Factory.FState) (d : Factory.Drv) (new : String),
      (new = "usque" ∨ new = "official") →
      k.st.inst = some d →
      Factory.get_current_backend k.st = new →
      Factory.switch_backend new env k = (Except.ok d, k))
    ∧ (∀ (env : Env) (k : K Factory.FState) (d : Factory.Drv) (new : String),
      (new = "usque" ∨ new = "official") →
      k.st.inst = some d →
      Factory.get_current_backend k.st ≠ new →
      (Factory.switch_backend new env k).1
          = Except.ok (Factory.freshDrv new k.st.socks5_port)
      ∧ Factory.get_current_backend (Factory.switch_backend new env k).2.st = new
      ∧ (Factory.switch_backend new env k).2.st.inst
          = some (Factory.freshDrv new k.st.socks5_port)
      ∧ ∃ n, n ≤ 10 ∧ (Factory.switch_backend new env k).2.trace
          = (Factory.runDrv BackendUsque.disconnect BackendOfficial.disconnect
              d env k).2.trace
            ++ List.replicate n ("[poll] " ++ toString k.st.socks5_port)
            ++ (if env.psutilOk
                then (env.netConns.filter
                    (fun c => decide (c.port = k.st.socks5_port ∧ c.status = "LISTEN"))).map
                    (fun c => "[kill] " ++ toString c.pid)
                else [])) := by
  constructor
  · intro env k d new hv hinst hcur
    simp only [Factory.get_current_backend] at hcur
    rcases hv with rfl | rfl <;>
      simp [Factory.switch_backend, bind_eval, getSt_eval, hinst, hcur, pure_eval]
  · intro env k d new hv hinst hcur
    have hds := do_switch_spec env k d new hv hinst
    have hsw : Factory.switch_backend new env k = Factory.do_switch new env k := by
      simp only [Factory.get_current_backend] at hcur
      rcases hv with rfl | rfl <;>
        simp [Factory.switch_backend, bind_eval, getSt_eval, hinst, hcur, pure_eval]
    rw [hsw]
    refine ⟨hds.1, ?_, hds.2.2.1, hds.2.2.2⟩
    simp [Factory.get_current_backend, hds.2.1]

/-- Witness for C4: switching from an active usque instance to official
yields the fresh official driver. -/
theorem c4_witness :
    (Factory.switch_backend "official" quietEnv
      ⟨⟨some (Factory.Drv.usque (BackendUsque.mkState "/var/lib/warp/config.json" 1080)),
        some "usque", 1080, some "usque"⟩, 0, []⟩).1
      = Except.ok (Factory.freshDrv "official" 1080) := by
  have h := c4_switch_backend.2 quietEnv
    ⟨⟨some (Factory.Drv.usque (BackendUsque.mkState "/var/lib/warp/config.json" 1080)),
      some "usque", 1080, some "usque"⟩, 0, []⟩
    (Factory.Drv.usque (BackendUsque.mkState "/var/lib/warp/config.json" 1080))
    "official" (Or.inr rfl) rfl (by decide)
  exact h.1

/-! ## Lemmas for IP rotation (claim C5) -/

/-- A successful connected-wait really observed the connected condition at
some world. -/
theorem wait_conn_observed (is_conn : M σ Bool) (inval : σ → σ) (fuel : Nat) :
    ∀ (env : Env) (k : K σ),
      (BaseController.wait_for_status is_conn inval "connected" fuel env k).1 = true →
      ∃ k', (is_conn env k').1 = true := by
  induction fuel with
  | zero => intro env k h; exact absurd h (by simp [BaseController.wait_for_status, pure_eval])
  | succ n ih =>
    intro env k h
    simp only [BaseController.wait_for_status, bind_eval] at h
    by_cases hc : (is_conn env k).1 = true
    · exact ⟨k, hc⟩
    · rw [if_neg (by simp [hc])] at h
      exact ih env _ h

/-- Claim C5: rotate_ip is exactly the disconnect, bounded
disconnected-wait, fixed delay, connect, bounded connected-wait cycle.
First conjunct: the base-controller rotate (used by both backend drivers,
as the next two conjuncts record definitionally) equals that sequence,
with the result true exactly when connect succeeded and the final
connected wait succeeded.  Fourth conjunct: a true result always rests on
an actual connected observation.  Fifth and sixth conjuncts: the
controller-app official rotate is the same cycle with the bounded
disconnected wait performed inside disconnect (whose result is always
true), followed by the delay, connect and bounded connected wait deciding
the result. -/
theorem c5_rotate_ip_cycle :
    (∀ (σ : Type) (connectM disconnectM is_conn : M σ Bool) (inval : σ → σ)
        (env : Env) (k : K σ),
      BaseController.rotate_ip_simple connectM disconnectM is_conn inval env k
        = (let k1 := (disconnectM env k).2
           let k2 := (BaseController.wait_for_status is_conn inval "disconnected" 5 env k1).2
           let k3 : K σ := ⟨k2.st, k2.tick + 1, k2.trace⟩
           let c := connectM env k3
           if c.1 then BaseController.wait_for_status is_conn inval "connected" 15 env c.2
           else (false, c.2)))
    ∧ BackendUsque.rotate_ip_simple
        = BaseController.rotate_ip_simple BackendUsque.connect BackendUsque.disconnect
            BackendUsque.is_connected BackendUsque.inval
    ∧ BackendOfficial.rotate_ip_simple
        = BaseController.rotate_ip_simple BackendOfficial.connect BackendOfficial.disconnect
            BackendOfficial.is_connected BackendOfficial.inval
    ∧ (∀ (σ : Type) (connectM disconnectM is_conn : M σ Bool) (inval : σ → σ)
        (env : Env) (k : K σ),
      (BaseController.rotate_ip_simple connectM disconnectM is_conn inval env k).1 = true →
      ∃ k', (is_conn env k').1 = true)
    ∧ (∀ (env : Env) (k : K CtrlOfficial.COState),
      (CtrlOfficial.disconnect env k).1 = true
      ∧ CtrlOfficial.disconnect env k
          = (true,
             (CtrlOfficial.stop_services env
               (CtrlOfficial.wait_for_status "disconnected" 5 env
                 (CtrlOfficial.execute_command "warp-cli --accept-tos disconnect" env
                   (let k0 : K CtrlOfficial.COState :=
                     ⟨CtrlOfficial.inval { k.st with cached_ip_info := none },
                       k.tick, k.trace⟩
                    if k0.st.mode = "tun" then (CtrlOfficial.cleanup_tun_routing env k0).2
                    else k0)).2).2).2))
    ∧ (∀ (env : Env) (k : K CtrlOfficial.COState),
      CtrlOfficial.rotate_ip_simple env k
        = (let kd := (CtrlOfficial.disconnect env k).2
           let k3 : K CtrlOfficial.COState := ⟨kd.st, kd.tick + 1, kd.trace⟩
           let c := CtrlOfficial.connect env k3
           if c.1 then CtrlOfficial.wait_for_status "connected" 15 env c.2
           else (false, c.2))) := by
  refine ⟨?_, rfl, rfl, ?_, ?_, ?_⟩
  · intro σ connectM disconnectM is_conn inval env k
    simp only [BaseController.rotate_ip_simple, bind_eval, sleep_eval]
    split <;> rfl
  · intro σ connectM disconnectM is_conn inval env k h
    simp only [BaseController.rotate_ip_simple, bind_eval, sleep_eval] at h
    by_cases hc : (connectM env
        ⟨(BaseController.wait_for_status is_conn inval "disconnected" 5 env
            (disconnectM env k).2).2.st,
          (BaseController.wait_for_status is_conn inval "disconnected" 5 env
            (disconnectM env k).2).2.tick + 1,
          (BaseController.wait_for_status is_conn inval "disconnected" 5 env
            (disconnectM env k).2).2.trace⟩).1 = true
    · rw [if_pos hc] at h
      exact wait_conn_observed is_conn inval 15 env _ h
    · rw [if_neg hc] at h
      exact absurd h (by simp [pure_eval])
  · intro env k
    constructor
    · simp only [CtrlOfficial.disconnect, bind_eval, modSt_eval, getSt_eval]
      split <;> rfl
    · simp only [CtrlOfficial.disconnect, bind_eval, modSt_eval, getSt_eval]
      split <;> rfl
  · intro env k
    simp only [CtrlOfficial.rotate_ip_simple, bind_eval, sleep_eval]
    split <;> rfl

/-- Witness for C5: the connected-observation conjunct applied in a world
where the usque driver rotate cycle succeeds. -/
theorem c5_witness :
    ∃ k', (BackendUsque.is_connected envUsqueUp k').1 = true := by
  refine c5_rotate_ip_cycle.2.2.2.1 BackendUsque.UState BackendUsque.connect
    BackendUsque.disconnect BackendUsque.is_connected BackendUsque.inval envUsqueUp
    ⟨BackendUsque.mkState "/var/lib/warp/config.json" 1080, 0, []⟩ (by decide)

/-! ## Lemmas for the WireGuard/TUN invariant (claim C1): preservation of
the stored protocol preference and operating mode. -/

theorem pm_pure {α : Type} (a : α) : CtrlOfficial.PresMP (pure a) :=
  fun _ _ => ⟨rfl, rfl⟩

theorem pm_bind {α β : Type} {m : M CtrlOfficial.COState α}
    {f : α → M CtrlOfficial.COState β} (hm : CtrlOfficial.PresMP m)
    (hf : ∀ a, CtrlOfficial.PresMP (f a)) : CtrlOfficial.PresMP (m >>= f) :=
  fun env k =>
    ⟨(hf (m env k).1 env (m env k).2).1.trans (hm env k).1,
     (hf (m env k).1 env (m env k).2).2.trans (hm env k).2⟩

theorem pm_ite {α : Type} {c : Prop} [Decidable c] {m1 m2 : M CtrlOfficial.COState α}
    (h1 : CtrlOfficial.PresMP m1) (h2 : CtrlOfficial.PresMP m2) :
    CtrlOfficial.PresMP (if c then m1 else m2) := by
  split
  · exact h1
  · exact h2

theorem pm_spawn (c : String) : CtrlOfficial.PresMP (spawn c) :=
  fun _ _ => ⟨rfl, rfl⟩

theorem pm_sleep : CtrlOfficial.PresMP sleep :=
  fun _ _ => ⟨rfl, rfl⟩

theorem pm_fileExists (p : String) : CtrlOfficial.PresMP (fileExists p) :=
  fun _ _ => ⟨rfl, rfl⟩

theorem pm_now : CtrlOfficial.PresMP now :=
  fun _ _ => ⟨rfl, rfl⟩

theorem pm_getSt : CtrlOfficial.PresMP getSt :=
  fun _ _ => ⟨rfl, rfl⟩

theorem pm_event (e : String) : CtrlOfficial.PresMP (event e) :=
  fun _ _ => ⟨rfl, rfl⟩

theorem pm_ipLookup : CtrlOfficial.PresMP ipLookup :=
  fun _ _ => ⟨rfl, rfl⟩

theorem pm_modSt {f : CtrlOfficial.COState → CtrlOfficial.COState}
    (h : ∀ s, (f s).preferred_protocol = s.preferred_protocol ∧ (f s).mode = s.mode) :
    CtrlOfficial.PresMP (modSt f) :=
  fun _ k => h k.st

theorem pm_runRaw (c : String) : CtrlOfficial.PresMP (CtrlOfficial.runRaw c) := by
  unfold CtrlOfficial.runRaw
  exact pm_bind (pm_spawn c) fun r => by
    cases r <;> exact pm_pure _

theorem pm_execute (c : String) : CtrlOfficial.PresMP (CtrlOfficial.execute_command c) := by
  unfold CtrlOfficial.execute_command
  exact pm_bind (pm_spawn c) fun r => by
    cases r
    · exact pm_ite (pm_pure _) (pm_pure _)
    · exact pm_pure _
    · exact pm_pure _

theorem pm_is_port_open (p : Nat) : CtrlOfficial.PresMP (CtrlOfficial.is_port_open p) := by
  unfold CtrlOfficial.is_port_open
  exact pm_bind (pm_runRaw _) fun r => by
    cases r <;> exact pm_pure _

theorem pm_is_daemon : CtrlOfficial.PresMP CtrlOfficial.is_daemon_responsive := by
  unfold CtrlOfficial.is_daemon_responsive
  exact pm_bind (pm_runRaw _) fun r => by
    cases r
    · exact pm_pure _
    · exact pm_ite (pm_pure _) (pm_bind (pm_runRaw _) fun r2 => by
        cases r2 <;> exact pm_pure _)

theorem pm_is_connected : CtrlOfficial.PresMP CtrlOfficial.is_connected := by
  unfold CtrlOfficial.is_connected CtrlOfficial.check_daemon_running
  exact pm_bind pm_is_daemon fun d =>
    pm_ite (pm_pure _) (pm_bind (pm_runRaw _) fun r => by
      cases r
      · exact pm_pure _
      · exact pm_ite (pm_pure _) (pm_pure _))

theorem pm_wait (target : String) (fuel : Nat) :
    CtrlOfficial.PresMP (CtrlOfficial.wait_for_status target fuel) := by
  induction fuel with
  | zero => exact pm_pure false
  | succ n ih =>
    simp only [CtrlOfficial.wait_for_status]
    exact pm_bind pm_is_connected fun c =>
      pm_ite (pm_bind (pm_modSt fun s => ⟨rfl, rfl⟩) fun _ => pm_pure true)
        (pm_bind pm_sleep fun _ => ih)

theorem pm_stop_services : CtrlOfficial.PresMP CtrlOfficial.stop_services := by
  unfold CtrlOfficial.stop_services
  exact pm_bind (pm_runRaw _) fun r1 => by
    cases r1
    · exact pm_pure _
    · exact pm_bind (pm_runRaw _) fun r2 => by
        cases r2
        · exact pm_pure _
        · exact pm_bind (pm_runRaw _) fun r3 => by
            cases r3
            · exact pm_pure _
            · exact pm_bind (pm_runRaw _) fun _ => pm_pure _

theorem pm_configure_proxy : CtrlOfficial.PresMP CtrlOfficial.configure_warp_proxy := by
  unfold CtrlOfficial.configure_warp_proxy
  dsimp only
  refine pm_bind (pm_fileExists _) fun ex => ?_
  refine pm_ite ?_ ?_
  · exact pm_bind (pm_execute _) fun _ => pm_bind (pm_execute _) fun _ =>
      pm_bind (pm_pure _) fun _ => pm_bind (pm_execute _) fun _ =>
        pm_bind (pm_execute _) fun _ => pm_bind (pm_execute _) fun _ => pm_pure _
  · exact pm_bind (pm_pure _) fun _ => pm_bind (pm_execute _) fun _ =>
      pm_bind (pm_execute _) fun _ => pm_bind (pm_execute _) fun _ => pm_pure _

theorem pm_configure_tun : CtrlOfficial.PresMP CtrlOfficial.configure_warp_tun := by
  unfold CtrlOfficial.configure_warp_tun
  dsimp only
  refine pm_bind (pm_fileExists _) fun ex => ?_
  refine pm_ite ?_ ?_
  · exact pm_bind (pm_execute _) fun _ => pm_bind (pm_execute _) fun _ =>
      pm_bind (pm_pure _) fun _ => pm_bind pm_getSt fun s =>
        pm_bind (pm_execute _) fun _ => pm_bind (pm_execute _) fun _ => pm_pure _
  · exact pm_bind (pm_pure _) fun _ => pm_bind pm_getSt fun s =>
      pm_bind (pm_execute _) fun _ => pm_bind (pm_execute _) fun _ => pm_pure _

theorem pm_ensure_socat : CtrlOfficial.PresMP CtrlOfficial.ensure_socat := by
  unfold CtrlOfficial.ensure_socat
  exact pm_bind pm_getSt fun s =>
    pm_ite (pm_pure _) (pm_bind (pm_runRaw _) fun r? =>
      pm_bind (pm_is_port_open _) fun port_open =>
        pm_ite (pm_pure _) (pm_bind (pm_runRaw _) fun st? => by
          cases st?
          · exact pm_pure _
          · exact pm_ite (pm_pure _)
              (pm_bind pm_sleep fun _ => pm_bind (pm_is_port_open _) fun p =>
                pm_ite pm_sleep (pm_pure _))))

theorem pm_start_http : CtrlOfficial.PresMP CtrlOfficial.start_http_proxy := by
  unfold CtrlOfficial.start_http_proxy
  exact pm_bind (pm_runRaw _) fun r => by
    cases r
    · exact pm_pure _
    · exact pm_ite (pm_pure _) (pm_bind (pm_runRaw _) fun _ => pm_pure _)

theorem pm_tun_proxy_wait (fuel : Nat) :
    CtrlOfficial.PresMP (CtrlOfficial.tun_proxy_wait fuel) := by
  induction fuel with
  | zero => exact pm_pure ()
  | succ n ih =>
    simp only [CtrlOfficial.tun_proxy_wait]
    exact pm_bind pm_getSt fun s => pm_bind (pm_is_port_open _) fun p =>
      pm_ite (pm_pure _) (pm_bind pm_sleep fun _ => ih)

theorem pm_start_tun_proxy : CtrlOfficial.PresMP CtrlOfficial.start_tun_proxy := by
  unfold CtrlOfficial.start_tun_proxy
  exact pm_bind (pm_runRaw _) fun r => by
    cases r
    · exact pm_pure _
    · exact pm_ite (pm_pure _) (pm_bind (pm_runRaw _) fun st? => by
        cases st?
        · exact pm_pure _
        · exact pm_tun_proxy_wait 10)

theorem pm_svc_wait {cfg : M CtrlOfficial.COState Bool} (hcfg : CtrlOfficial.PresMP cfg)
    (fuel : Nat) : CtrlOfficial.PresMP (CtrlOfficial.svc_wait cfg fuel) := by
  induction fuel with
  | zero => exact pm_pure false
  | succ n ih =>
    simp only [CtrlOfficial.svc_wait]
    exact pm_bind pm_is_daemon fun d =>
      pm_ite hcfg (pm_bind pm_sleep fun _ => ih)

theorem pm_start_services_proxy : CtrlOfficial.PresMP CtrlOfficial.start_services_proxy := by
  unfold CtrlOfficial.start_services_proxy
  exact pm_bind (pm_modSt fun s => ⟨rfl, rfl⟩) fun _ =>
    pm_bind (pm_runRaw _) fun r => by
      cases r
      · exact pm_pure _
      · exact pm_ite (pm_pure _)
          (pm_bind pm_sleep fun _ => pm_bind pm_ensure_socat fun _ =>
            pm_svc_wait pm_configure_proxy 30)

theorem pm_start_services_tun : CtrlOfficial.PresMP CtrlOfficial.start_services_tun := by
  unfold CtrlOfficial.start_services_tun
  exact pm_bind (pm_modSt fun s => ⟨rfl, rfl⟩) fun _ =>
    pm_bind (pm_runRaw _) fun r => by
      cases r
      · exact pm_pure _
      · exact pm_ite (pm_pure _)
          (pm_bind pm_sleep fun _ => pm_svc_wait pm_configure_tun 30)

theorem pm_save_ip_phase : CtrlOfficial.PresMP CtrlOfficial.save_ip_phase := by
  unfold CtrlOfficial.save_ip_phase
  exact pm_bind pm_getSt fun s => by
    cases s.saved_interface
    · exact pm_pure _
    · exact pm_bind (pm_runRaw _) fun r => by
        cases r
        · exact pm_pure _
        · rename_i rr
          dsimp only
          cases CtrlOfficial.firstInetIp (pySplitOn (pyTrim rr.2.1) "\n")
          · exact pm_pure _
          · exact pm_modSt fun s => ⟨rfl, rfl⟩

theorem pm_save_original_route : CtrlOfficial.PresMP CtrlOfficial.save_original_route := by
  unfold CtrlOfficial.save_original_route
  exact pm_bind (pm_runRaw _) fun r => by
    cases r
    · exact pm_pure _
    · rename_i rr
      refine pm_ite ?_ pm_save_ip_phase
      cases afterTok (pyWords ((pySplitOn (pyTrim rr.2.1) "\n").headD "")) "via"
      · exact pm_pure _
      · refine pm_bind (pm_modSt fun s => ⟨rfl, rfl⟩) fun _ => ?_
        cases afterTok (pyWords ((pySplitOn (pyTrim rr.2.1) "\n").headD "")) "dev"
        · exact pm_pure _
        · exact pm_bind (pm_modSt fun s => ⟨rfl, rfl⟩) fun _ => pm_save_ip_phase

theorem pm_copy_subnets (iface : String) (lines : List String) :
    CtrlOfficial.PresMP (CtrlOfficial.copy_subnets iface lines) := by
  induction lines with
  | nil => exact pm_pure true
  | cons line rest ih =>
    simp only [CtrlOfficial.copy_subnets]
    cases (pyWords line).head?
    · exact ih
    · exact pm_bind (pm_runRaw _) fun r => by
        cases r
        · exact pm_pure _
        · exact ih

theorem pm_nft_table_wait (fuel : Nat) :
    CtrlOfficial.PresMP (CtrlOfficial.nft_table_wait fuel) := by
  induction fuel with
  | zero => exact pm_pure false
  | succ n ih =>
    simp only [CtrlOfficial.nft_table_wait]
    exact pm_bind (pm_runRaw _) fun r => by
      cases r
      · exact pm_pure _
      · exact pm_ite (pm_pure _) (pm_bind pm_sleep fun _ => ih)

theorem pm_nft_insert_attempt (iface : String) :
    CtrlOfficial.PresMP (CtrlOfficial.nft_insert_attempt iface) := by
  unfold CtrlOfficial.nft_insert_attempt
  exact pm_bind (pm_runRaw _) fun a => by
    cases a
    · exact pm_pure _
    · exact pm_bind (pm_runRaw _) fun b => by
        cases b
        · exact pm_pure _
        · exact pm_bind (pm_runRaw _) fun c => by
            cases c
            · exact pm_pure _
            · exact pm_bind (pm_runRaw _) fun d => by
                cases d
                · exact pm_pure _
                · exact pm_bind (pm_runRaw _) fun v => by
                    cases v <;> exact pm_pure _

theorem pm_nft_insert_retry (iface : String) (fuel : Nat) :
    CtrlOfficial.PresMP (CtrlOfficial.nft_insert_retry iface fuel) := by
  induction fuel with
  | zero => exact pm_pure ()
  | succ n ih =>
    simp only [CtrlOfficial.nft_insert_retry]
    exact pm_bind (pm_nft_insert_attempt iface) fun a => by
      cases a
      · exact pm_pure _
      · rename_i b
        cases b
        · exact pm_bind pm_sleep fun _ => ih
        · exact pm_pure _

theorem pm_apply_tun : CtrlOfficial.PresMP CtrlOfficial.apply_tun_routing := by
  unfold CtrlOfficial.apply_tun_routing
  refine pm_bind pm_getSt fun s => ?_
  rcases s.saved_gateway with _ | gw
  · exact pm_pure ()
  rcases s.saved_interface with _ | iface
  · exact pm_pure ()
  rcases s.saved_ip with _ | ip
  · exact pm_pure ()
  refine pm_ite (pm_pure ()) ?_
  refine pm_bind (pm_runRaw _) fun r1 => ?_
  rcases r1 with _ | r1
  · exact pm_pure ()
  refine pm_bind (pm_runRaw _) fun r2 => ?_
  rcases r2 with _ | r2
  · exact pm_pure ()
  refine pm_bind (pm_copy_subnets _ _) fun ok => ?_
  refine pm_ite (pm_pure ()) ?_
  refine pm_bind (pm_runRaw _) fun r3 => ?_
  rcases r3 with _ | r3
  · exact pm_pure ()
  refine pm_bind (pm_nft_table_wait 10) fun ready => ?_
  exact pm_ite (pm_nft_insert_retry iface 3) (pm_pure ())

theorem pm_cleanup_rules_loop (lines : List String) :
    CtrlOfficial.PresMP (CtrlOfficial.cleanup_rules_loop lines) := by
  induction lines with
  | nil => exact pm_pure true
  | cons line rest ih =>
    simp only [CtrlOfficial.cleanup_rules_loop]
    refine pm_ite ?_ ih
    refine pm_ite ?_ ih
    cases afterTok (pyWords line) "from"
    · exact pm_pure _
    · exact pm_bind (pm_runRaw _) fun r => by
        cases r
        · exact pm_pure _
        · exact ih

theorem pm_cleanup_tun : CtrlOfficial.PresMP CtrlOfficial.cleanup_tun_routing := by
  unfold CtrlOfficial.cleanup_tun_routing
  exact pm_bind (pm_runRaw _) fun r => by
    cases r
    · exact pm_pure _
    · exact pm_bind (pm_cleanup_rules_loop _) fun ok =>
        pm_ite (pm_pure _) (pm_bind (pm_runRaw _) fun _ => pm_pure _)

theorem pm_connect_proxy : CtrlOfficial.PresMP CtrlOfficial.connect_proxy := by
  unfold CtrlOfficial.connect_proxy
  dsimp only
  refine pm_bind pm_is_daemon fun d => ?_
  refine pm_ite ?_ ?_
  · refine pm_bind pm_stop_services fun _ => ?_
    refine pm_bind pm_start_services_proxy fun y => ?_
    refine pm_ite (pm_pure _) ?_
    exact pm_bind pm_ensure_socat fun _ => pm_bind (pm_execute _) fun _ =>
      pm_bind (pm_execute _) fun _ => pm_bind (pm_execute _) fun _ =>
        pm_bind (pm_execute _) fun _ => pm_bind pm_sleep fun _ =>
          pm_bind (pm_wait "connected" 600) fun w =>
            pm_ite
              (pm_bind (pm_modSt fun s => ⟨rfl, rfl⟩) fun _ =>
                pm_bind (pm_modSt fun s => ⟨rfl, rfl⟩) fun _ =>
                  pm_bind pm_start_http fun _ => pm_pure _)
              (pm_pure _)
  · refine pm_bind (pm_pure _) fun y => ?_
    refine pm_ite (pm_pure _) ?_
    exact pm_bind pm_ensure_socat fun _ => pm_bind (pm_execute _) fun _ =>
      pm_bind (pm_execute _) fun _ => pm_bind (pm_execute _) fun _ =>
        pm_bind (pm_execute _) fun _ => pm_bind pm_sleep fun _ =>
          pm_bind (pm_wait "connected" 600) fun w =>
            pm_ite
              (pm_bind (pm_modSt fun s => ⟨rfl, rfl⟩) fun _ =>
                pm_bind (pm_modSt fun s => ⟨rfl, rfl⟩) fun _ =>
                  pm_bind pm_start_http fun _ => pm_pure _)
              (pm_pure _)

theorem pm_connect_tun : CtrlOfficial.PresMP CtrlOfficial.connect_tun := by
  unfold CtrlOfficial.connect_tun
  dsimp only
  refine pm_bind pm_is_daemon fun d => ?_
  refine pm_ite ?_ ?_
  · refine pm_bind pm_stop_services fun _ => ?_
    refine pm_bind pm_start_services_tun fun y => ?_
    refine pm_ite (pm_pure _) ?_
    exact pm_bind pm_save_original_route fun _ => pm_bind (pm_execute _) fun _ =>
      pm_bind pm_getSt fun s => pm_bind (pm_execute _) fun _ =>
        pm_bind (pm_execute _) fun _ => pm_bind pm_sleep fun _ =>
          pm_bind (pm_wait "connected" 600) fun w =>
            pm_ite
              (pm_bind (pm_modSt fun s => ⟨rfl, rfl⟩) fun _ =>
                pm_bind (pm_modSt fun s => ⟨rfl, rfl⟩) fun _ =>
                  pm_bind pm_sleep fun _ =>
                    pm_bind pm_apply_tun fun _ =>
                      pm_bind pm_start_tun_proxy fun _ => pm_pure _)
              (pm_pure _)
  · refine pm_bind (pm_pure _) fun y => ?_
    refine pm_ite (pm_pure _) ?_
    exact pm_bind pm_save_original_route fun _ => pm_bind (pm_execute _) fun _ =>
      pm_bind pm_getSt fun s => pm_bind (pm_execute _) fun _ =>
        pm_bind (pm_execute _) fun _ => pm_bind pm_sleep fun _ =>
          pm_bind (pm_wait "connected" 600) fun w =>
            pm_ite
              (pm_bind (pm_modSt fun s => ⟨rfl, rfl⟩) fun _ =>
                pm_bind (pm_modSt fun s => ⟨rfl, rfl⟩) fun _ =>
                  pm_bind pm_sleep fun _ =>
                    pm_bind pm_apply_tun fun _ =>
                      pm_bind pm_start_tun_proxy fun _ => pm_pure _)
              (pm_pure _)

theorem pm_connect : CtrlOfficial.PresMP CtrlOfficial.connect := by
  unfold CtrlOfficial.connect
  exact pm_bind pm_getSt fun s => pm_ite pm_connect_tun pm_connect_proxy

theorem pm_disconnect : CtrlOfficial.PresMP CtrlOfficial.disconnect := by
  unfold CtrlOfficial.disconnect
  dsimp only
  refine pm_bind (pm_modSt fun s => ⟨rfl, rfl⟩) fun _ => ?_
  refine pm_bind (pm_modSt fun s => ⟨rfl, rfl⟩) fun _ => ?_
  refine pm_bind pm_getSt fun s => ?_
  refine pm_ite ?_ ?_
  · exact pm_bind pm_cleanup_tun fun y => pm_bind (pm_execute _) fun _ =>
      pm_bind (pm_wait "disconnected" 5) fun _ =>
        pm_bind pm_stop_services fun _ => pm_pure _
  · exact pm_bind (pm_pure _) fun y => pm_bind (pm_execute _) fun _ =>
      pm_bind (pm_wait "disconnected" 5) fun _ =>
        pm_bind pm_stop_services fun _ => pm_pure _

theorem pm_get_status_uncached : CtrlOfficial.PresMP CtrlOfficial.get_status_uncached := by
  unfold CtrlOfficial.get_status_uncached
  refine pm_bind pm_getSt fun s => ?_
  refine pm_bind pm_is_connected fun c => ?_
  refine pm_ite (pm_bind (pm_modSt fun s => ⟨rfl, rfl⟩) fun _ => pm_pure _) ?_
  refine pm_bind pm_now fun n => ?_
  refine pm_bind pm_getSt fun s2 => ?_
  rcases s2.cached_ip_info with _ | info
  · refine pm_bind pm_ipLookup fun fresh => ?_
    rcases fresh with _ | i
    · exact pm_pure _
    · exact pm_bind (pm_modSt fun s => ⟨rfl, rfl⟩) fun _ => pm_pure _
  · refine pm_ite (pm_pure _) ?_
    refine pm_bind pm_ipLookup fun fresh => ?_
    rcases fresh with _ | i
    · exact pm_pure _
    · exact pm_bind (pm_modSt fun s => ⟨rfl, rfl⟩) fun _ => pm_pure _

theorem pm_get_status : CtrlOfficial.PresMP CtrlOfficial.get_status := by
  unfold CtrlOfficial.get_status
  refine pm_bind pm_now fun n => ?_
  refine pm_bind pm_getSt fun s => ?_
  rcases s.status_cache with _ | c
  · exact pm_bind pm_get_status_uncached fun st =>
      pm_bind (pm_modSt fun s => ⟨rfl, rfl⟩) fun _ => pm_pure _
  · refine pm_ite (pm_pure _) ?_
    exact pm_bind pm_get_status_uncached fun st =>
      pm_bind (pm_modSt fun s => ⟨rfl, rfl⟩) fun _ => pm_pure _

theorem pm_rotate : CtrlOfficial.PresMP CtrlOfficial.rotate_ip_simple := by
  unfold CtrlOfficial.rotate_ip_simple
  exact pm_bind pm_disconnect fun _ => pm_bind pm_sleep fun _ =>
    pm_bind pm_connect fun c => pm_ite (pm_wait "connected" 15) (pm_pure _)

theorem pm_set_custom_endpoint (e : String) :
    CtrlOfficial.PresMP (CtrlOfficial.set_custom_endpoint e) := by
  unfold CtrlOfficial.set_custom_endpoint
  exact pm_bind (pm_execute _) fun _ => pm_bind (pm_execute _) fun _ =>
    pm_bind (pm_wait "disconnected" 5) fun _ => pm_bind pm_sleep fun _ => pm_connect

theorem pm_push (p : String) : CtrlOfficial.PresMP (CtrlOfficial.set_protocol_push p) := by
  unfold CtrlOfficial.set_protocol_push
  exact pm_bind (pm_execute _) fun _ =>
    pm_bind (pm_wait "disconnected" 5) fun _ =>
      pm_bind (pm_execute _) fun res => by
        cases res
        · exact pm_pure _
        · exact pm_bind pm_stop_services fun _ => pm_bind pm_sleep fun _ => pm_connect

/-! Projection forms of the preservation lemmas, for rewriting inside
applied world expressions. -/

theorem pref_push (p : String) (env : Env) (k : K CtrlOfficial.COState) :
    (CtrlOfficial.set_protocol_push p env k).2.st.preferred_protocol
      = k.st.preferred_protocol :=
  (pm_push p env k).1

theorem mode_push (p : String) (env : Env) (k : K CtrlOfficial.COState) :
    (CtrlOfficial.set_protocol_push p env k).2.st.mode = k.st.mode :=
  (pm_push p env k).2

theorem pref_disc (env : Env) (k : K CtrlOfficial.COState) :
    (CtrlOfficial.disconnect env k).2.st.preferred_protocol = k.st.preferred_protocol :=
  (pm_disconnect env k).1

theorem mode_disc (env : Env) (k : K CtrlOfficial.COState) :
    (CtrlOfficial.disconnect env k).2.st.mode = k.st.mode :=
  (pm_disconnect env k).2

theorem pref_cleanup (env : Env) (k : K CtrlOfficial.COState) :
    (CtrlOfficial.cleanup_tun_routing env k).2.st.preferred_protocol
      = k.st.preferred_protocol :=
  (pm_cleanup_tun env k).1

theorem mode_cleanup (env : Env) (k : K CtrlOfficial.COState) :
    (CtrlOfficial.cleanup_tun_routing env k).2.st.mode = k.st.mode :=
  (pm_cleanup_tun env k).2

theorem pref_exec (c : String) (env : Env) (k : K CtrlOfficial.COState) :
    (CtrlOfficial.execute_command c env k).2.st.preferred_protocol
      = k.st.preferred_protocol :=
  (pm_execute c env k).1

theorem mode_exec (c : String) (env : Env) (k : K CtrlOfficial.COState) :
    (CtrlOfficial.execute_command c env k).2.st.mode = k.st.mode :=
  (pm_execute c env k).2

theorem pref_waitO (t : String) (fuel : Nat) (env : Env) (k : K CtrlOfficial.COState) :
    (CtrlOfficial.wait_for_status t fuel env k).2.st.preferred_protocol
      = k.st.preferred_protocol :=
  (pm_wait t fuel env k).1

theorem mode_waitO (t : String) (fuel : Nat) (env : Env) (k : K CtrlOfficial.COState) :
    (CtrlOfficial.wait_for_status t fuel env k).2.st.mode = k.st.mode :=
  (pm_wait t fuel env k).2

theorem pref_stop (env : Env) (k : K CtrlOfficial.COState) :
    (CtrlOfficial.stop_services env k).2.st.preferred_protocol = k.st.preferred_protocol :=
  (pm_stop_services env k).1

theorem mode_stop (env : Env) (k : K CtrlOfficial.COState) :
    (CtrlOfficial.stop_services env k).2.st.mode = k.st.mode :=
  (pm_stop_services env k).2

theorem pref_conn (env : Env) (k : K CtrlOfficial.COState) :
    (CtrlOfficial.connect env k).2.st.preferred_protocol = k.st.preferred_protocol :=
  (pm_connect env k).1

theorem mode_conn (env : Env) (k : K CtrlOfficial.COState) :
    (CtrlOfficial.connect env k).2.st.mode = k.st.mode :=
  (pm_connect env k).2

/-- set_mode preserves the WireGuard/TUN invariant: entering proxy mode
with a WireGuard preference downgrades the preference to MASQUE before the
mode flips. -/
theorem inv_set_mode (m : String) (env : Env) (k : K CtrlOfficial.COState)
    (hi : CtrlOfficial.ProtocolModeInv k.st) :
    CtrlOfficial.ProtocolModeInv ((CtrlOfficial.set_mode m env k).2.st) := by
  unfold CtrlOfficial.set_mode
  simp only [bind_eval, getSt_eval, pure_eval]
  split
  · exact hi
  · rename_i hvalid
    try simp only [bind_eval, getSt_eval, pure_eval]
    split
    · exact hi
    · rename_i hsame
      try simp only [bind_eval, modSt_eval, event_eval, sleep_eval, pure_eval]
      by_cases hdg : m = "proxy" ∧ k.st.preferred_protocol = "wireguard"
      · rw [if_pos hdg]
        simp only [bind_eval, modSt_eval, event_eval, sleep_eval, pure_eval]
        split <;>
          (simp only [bind_eval, modSt_eval, event_eval, sleep_eval, pure_eval,
             CtrlOfficial.inval]
           try dsimp only
           intro hw
           simp only [pref_cleanup, pref_disc] at hw
           try dsimp only at hw
           exact absurd hw (by decide))
      · rw [if_neg hdg]
        simp only [bind_eval, modSt_eval, event_eval, sleep_eval, pure_eval]
        split <;>
          (simp only [bind_eval, modSt_eval, event_eval, sleep_eval, pure_eval,
             CtrlOfficial.inval]
           try dsimp only
           intro hw
           simp only [pref_cleanup, pref_disc] at hw
           try dsimp only at hw
           by_cases hm : m = "tun"
           · exact hm
           · exfalso
             have hproxy : m = "proxy" := by
               by_contra hp
               exact hvalid ⟨hp, hm⟩
             exact hdg ⟨hproxy, hw⟩)

/-- set_protocol preserves the WireGuard/TUN invariant: the stored
preference only ever becomes a protocol that passed the TUN-mode guard,
and the mode is never changed. -/
theorem inv_set_protocol (protocol : String) (env : Env) (k : K CtrlOfficial.COState)
    (hi : CtrlOfficial.ProtocolModeInv k.st) :
    CtrlOfficial.ProtocolModeInv ((CtrlOfficial.set_protocol protocol env k).2.st) := by
  unfold CtrlOfficial.set_protocol
  set p := pyLower (if protocol = "" then "masque" else protocol)
  try simp only [bind_eval, getSt_eval, pure_eval]
  split
  · exact hi
  · try simp only [bind_eval, getSt_eval, pure_eval]
    split
    · exact hi
    · rename_i hguard
      split
      · exact hi
      · simp only [bind_eval, modSt_eval, pure_eval]
        intro hw
        simp only [pref_push, CtrlOfficial.inval] at hw
        try dsimp only at hw
        simp only [mode_push, CtrlOfficial.inval]
        try dsimp only
        by_contra hmode
        exact hguard ⟨hw, hmode⟩

theorem ipLookup_eval (env : Env) (k : K σ) :
    (ipLookup : M σ (Option IpInfo)) env k
      = (env.ipApi k.tick, ⟨k.st, k.tick + 1, k.trace⟩) := rfl

/-- The controller-app usque driver always reports the MASQUE protocol in
a freshly computed status record. -/
theorem usque_reports_masque (env : Env) (k : K CtrlUsque.CUState) :
    (CtrlUsque.get_status_uncached env k).1.warp_protocol = "MASQUE" := by
  unfold CtrlUsque.get_status_uncached
  simp only [bind_eval, getSt_eval, pure_eval, modSt_eval, now_eval, ipLookup_eval]
  split
  · rfl
  · simp only [bind_eval, getSt_eval, pure_eval, now_eval]
    cases hip : (CtrlUsque.is_connected env k).2.st.cached_ip_info
    · simp only [hip, bind_eval, pure_eval, modSt_eval, ipLookup_eval]
      cases hfr : env.ipApi (CtrlUsque.is_connected env k).2.tick <;>
        simp only [hfr, bind_eval, pure_eval, modSt_eval, ipLookup_eval] <;> rfl
    · simp only [hip, bind_eval, pure_eval, modSt_eval, ipLookup_eval]
      split
      · rfl
      · cases hfr : env.ipApi (CtrlUsque.is_connected env k).2.tick <;>
          simp only [hfr, bind_eval, pure_eval, modSt_eval, ipLookup_eval] <;> rfl

/-- Claim C1: on the controller-app official driver, set_protocol
"wireguard" outside TUN mode returns false with no state change and no
command issued (the result is exactly (false, k)); a true result can only
arise in TUN mode; the usque driver always reports MASQUE in a freshly
computed status record; and every driver operation (set_protocol,
set_mode, connect, disconnect, rotate_ip, get_status, wait_for_status,
set_custom_endpoint) preserves the invariant that a stored WireGuard
preference implies TUN mode. -/
theorem c1_wireguard_tun_only :
    (∀ (env : Env) (k : K CtrlOfficial.COState),
      k.st.mode ≠ "tun" →
      CtrlOfficial.set_protocol "wireguard" env k = (false, k))
    ∧ (∀ (env : Env) (k : K CtrlOfficial.COState),
      (CtrlOfficial.set_protocol "wireguard" env k).1 = true → k.st.mode = "tun")
    ∧ (∀ (env : Env) (k : K CtrlUsque.CUState),
      (CtrlUsque.get_status_uncached env k).1.warp_protocol = "MASQUE")
    ∧ (∀ (env : Env) (k : K CtrlOfficial.COState),
      CtrlOfficial.ProtocolModeInv k.st →
        (∀ pr, CtrlOfficial.ProtocolModeInv ((CtrlOfficial.set_protocol pr env k).2.st))
        ∧ (∀ m, CtrlOfficial.ProtocolModeInv ((CtrlOfficial.set_mode m env k).2.st))
        ∧ CtrlOfficial.ProtocolModeInv ((CtrlOfficial.connect env k).2.st)
        ∧ CtrlOfficial.ProtocolModeInv ((CtrlOfficial.disconnect env k).2.st)
        ∧ CtrlOfficial.ProtocolModeInv ((CtrlOfficial.rotate_ip_simple env k).2.st)
        ∧ CtrlOfficial.ProtocolModeInv ((CtrlOfficial.get_status env k).2.st)
        ∧ (∀ t fuel, CtrlOfficial.ProtocolModeInv
            ((CtrlOfficial.wait_for_status t fuel env k).2.st))
        ∧ (∀ e, CtrlOfficial.ProtocolModeInv
            ((CtrlOfficial.set_custom_endpoint e env k).2.st))) := by
  have hp : pyLower (if ("wireguard" : String) = "" then "masque" else "wireguard")
      = "wireguard" := by decide
  have hno : ∀ (env : Env) (k : K CtrlOfficial.COState), k.st.mode ≠ "tun" →
      CtrlOfficial.set_protocol "wireguard" env k = (false, k) := by
    intro env k hm
    unfold CtrlOfficial.set_protocol
    try dsimp only
    simp only [hp]
    rw [if_neg (by decide)]
    simp only [bind_eval, getSt_eval]
    rw [if_pos ⟨trivial, hm⟩]
    rfl
  refine ⟨hno, ?_, usque_reports_masque, ?_⟩
  · intro env k h
    by_cases hm : k.st.mode = "tun"
    · exact hm
    · rw [hno env k hm] at h
      exact absurd h Bool.false_ne_true
  · intro env k hi
    have htr : ∀ (α : Type) (mm : M CtrlOfficial.COState α), CtrlOfficial.PresMP mm →
        CtrlOfficial.ProtocolModeInv ((mm env k).2.st) := by
      intro α mm hmm hw
      rw [(hmm env k).2]
      exact hi (((hmm env k).1).symm.trans hw)
    exact ⟨fun pr => inv_set_protocol pr env k hi,
      fun m => inv_set_mode m env k hi,
      htr _ _ pm_connect,
      htr _ _ pm_disconnect,
      htr _ _ pm_rotate,
      htr _ _ pm_get_status,
      fun t fuel => htr _ _ (pm_wait t fuel),
      fun e => htr _ _ (pm_set_custom_endpoint e)⟩

/-- Witness for C1: in proxy mode, requesting WireGuard is rejected with
no state or trace change at all. -/
theorem c1_witness :
    CtrlOfficial.set_protocol "wireguard" quietEnv
        ⟨CtrlOfficial.mkState 1080 8000 "proxy", 0, []⟩
      = (false, ⟨CtrlOfficial.mkState 1080 8000 "proxy", 0, []⟩) :=
  c1_wireguard_tun_only.1 quietEnv ⟨CtrlOfficial.mkState 1080 8000 "proxy", 0, []⟩
    (by decide)

end Warp





